import Mathlib

/-!
# animint.js : linked interactive plots over d3

A shallow embedding of `inst/htmljs/animint.js`.  The closure variables of the
`animint` constructor (`Selectors`, `Plots`, `Geoms`, `SVGs` and the SVG nodes
appended to the mount element) become one explicit `State`; every closure
(`add_plot`, `add_selector`, `add_geom`, `update_geom`, `update_selector` and the
two fetch callbacks) becomes a function that returns the heap it leaves behind
together with the exception that escaped it, if any.
-/

namespace Animint

/-! ## JavaScript values -/

/-- The exceptions the script can raise: reading a property of `undefined`. -/
inductive JsError where
  | typeError
  deriving DecidableEq, Repr

/-- Scalar values of the manifest and of the constructor arguments.  JSON numbers
are restricted to integers. -/
inductive JsVal where
  | undefined
  | null
  | num (n : Int)
  | str (s : String)
  deriving DecidableEq, Repr

/-- ToString, as applied when a value is used as a property key or as an
attribute value. -/
def JsVal.toKey : JsVal → String
  | .undefined => "undefined"
  | .null => "null"
  | .num n => toString n
  | .str s => s

/-- One parsed CSV row: column name and cell, in header order. -/
abbrev Row := List (String × String)

/-- Source `getcol(v_name)`: the accessor `function(d) { return d[v_name]; }`.
A row without that column yields `undefined`, here `none`. -/
def getcol (v_name : String) (d : Row) : Option String :=
  d.lookup v_name

/-- String coercion of a cell used as a map key: `undefined + ""`. -/
def keyString : Option String → String
  | none => "undefined"
  | some s => s

/-- The values the script stores in `g_info.data` and reads back from it. -/
inductive JsData where
  | undefined
  | str (s : String)
  | row (r : Row)
  | array (rows : List Row)
  | object (props : List (String × JsData))

/-- Canonical array index of a property key: decimal digits without a leading
zero, below 2^32 - 1. -/
def parseDigits : List Char → Nat → Option Nat
  | [], acc => some acc
  | c :: cs, acc => if c.isDigit then parseDigits cs (10 * acc + (c.toNat - 48)) else none

/-- Array index denoted by a property key, when it is one. -/
def arrayIndex (s : String) : Option Nat :=
  match s.data with
  | [] => none
  | [c] => if c.isDigit then some (c.toNat - 48) else none
  | c :: cs =>
    if c = '0' then none
    else (parseDigits (c :: cs) 0).filter (fun n => decide (n < 4294967295))

/-- Order in which `for ... in` visits own property keys: array indices in
ascending numeric order, then the other keys in insertion order. -/
def ownKeyOrder (ks : List String) : List String :=
  ((ks.filterMap (fun k => (arrayIndex k).map (fun n => (n, k)))).insertionSort
      (fun a b => a.1 ≤ b.1)).map Prod.snd
    ++ ks.filter (fun k => (arrayIndex k).isNone)

/-- Own property `data[k]` of a value, `none` when there is no such own property.
Inherited members and `length` are not represented. -/
def JsData.own : JsData → String → Option JsData
  | .undefined, _ => none
  | .str s, k => (arrayIndex k).bind (fun n => s.data[n]?.map (fun c => .str (String.mk [c])))
  | .row r, k => (r.lookup k).map .str
  | .array rows, k => (arrayIndex k).bind (fun n => rows[n]?.map .row)
  | .object props, k => props.lookup k

/-- Property read `data[k]`: a TypeError on `undefined`, else the own property
or `undefined`. -/
def getProp (data : JsData) (k : String) : Except JsError JsData :=
  match data with
  | .undefined => .error .typeError
  | d => .ok ((d.own k).getD .undefined)

/-! ## The d3 operations the script calls -/

/-- Modelled from the spec: the grouping loop of d3's `nest.map`, which is library
code outside the source file.  The row joins the bucket stored under its key, or a
new bucket is opened after the existing ones. -/
def bucketPush : List (String × List Row) → String → Row → List (String × List Row)
  | [], k, d => [(k, [d])]
  | (k', vs) :: rest, k, d =>
    if k' = k then (k', vs ++ [d]) :: rest else (k', vs) :: bucketPush rest k d

/-- Modelled from the spec: d3's `valuesByKey` map for one nesting level, filled
row by row with the string form of `getcol(v_name)(row)`. -/
def valuesByKey (v_name : String) (array : List Row) : List (String × List Row) :=
  array.foldl (fun m d => bucketPush m (keyString (getcol v_name d)) d) []

/-- Modelled from the spec: d3's `nest.map(array)` for the key accessors
`getcol(v)` of the listed fields: with no key left the array itself is the leaf,
otherwise one property per distinct key value holding the nest of its bucket. -/
def d3_nest_map : List String → List Row → JsData
  | [], array => .array array
  | v_name :: keys, array =>
    .object ((valuesByKey v_name array).map (fun kv => (kv.1, d3_nest_map keys kv.2)))

/-- Modelled from the spec: `d3.keys(map)`, the keys a `for ... in` loop visits. -/
def d3_keys : JsData → List String
  | .undefined => []
  | .str s => (List.range s.length).map toString
  | .row r => ownKeyOrder (r.map Prod.fst)
  | .array rows => (List.range rows.length).map toString
  | .object props => ownKeyOrder (props.map Prod.fst)

/-- One element of `d3.entries(...)`: the object with fields `key` and `value`. -/
structure Entry where
  key : String
  value : String
  deriving DecidableEq, Repr

/-- Modelled from the spec: `d3.entries` applied to an array of strings. -/
def d3_entries (ks : List String) : List Entry :=
  ks.enum.map (fun p => ⟨toString p.1, p.2⟩)

mutual
/-- Row arrays sitting at the leaves of a nested index, left to right. -/
def JsData.leaves : JsData → List (List Row)
  | .array rows => [rows]
  | .object props => leavesOfProps props
  | _ => []
/-- Leaves below a property list. -/
def leavesOfProps : List (String × JsData) → List (List Row)
  | [] => []
  | p :: rest => p.2.leaves ++ leavesOfProps rest
end

/-! ## Manifest entities and the page -/

/-- A selector of the manifest: the selected value and the geoms to re-render. -/
structure SelectorInfo where
  selected : JsVal
  hilite : List String
  subset : List String
  deriving DecidableEq, Repr

/-- The `ranges` member of a plot: the x and y domains. -/
structure Ranges where
  x : List Int
  y : List Int
  deriving DecidableEq, Repr

/-- A plot of the manifest.  `ranges` and `geoms` are what `add_plot` reads; `width`
and `height` are the pixel dimensions the manifest declares for the plot, which no
line of the script reads. -/
structure PlotInfo where
  ranges : Ranges
  geoms : List String
  width : JsVal
  height : JsVal
  deriving DecidableEq, Repr

/-- The aesthetic mapping of a geom: the columns drawn as x and y. -/
structure Aes where
  x : String
  y : String
  deriving DecidableEq, Repr

/-- A geom.  `data` is the CSV path (a `String`) in the manifest and the nested
index (a `JsData`) once `add_geom` has stored the geom in `Geoms`; `subset` is
the subset mapping as the pairs `(aes_name, v_name)` in `for ... in` order. -/
structure GeomInfo (D : Type) where
  data : D
  subset : List (String × String)
  aes : Aes
  classed : String
  geom : String

/-- The JSON manifest: each member as its `(name, value)` pairs in `for ... in`
order. -/
structure Manifest where
  plots : List (String × PlotInfo)
  selectors : List (String × SelectorInfo)
  geoms : List (String × GeomInfo String)

/-- A child element of an SVG surface with the datum the data join bound to it. -/
structure Element where
  tag : String
  attrs : List (String × String)
  datum : Option Entry
  deriving DecidableEq, Repr

/-- A `d3.scale.linear()` after `.domain(...)` and `.range(...)`. -/
structure Scale where
  domain : List Int
  range : List JsVal
  deriving DecidableEq, Repr

/-- The object `svg` of `add_plot`: the appended SVG node (attributes, children)
with the two scales stored on it. -/
structure Surface where
  attrs : List (String × String)
  children : List Element
  x : Scale
  y : Scale
  deriving DecidableEq, Repr

/-- Assignment `obj[k] = v`, also `setAttribute(k, v)`: overwrite in place or add
at the end. -/
def setProp {β : Type} : List (String × β) → String → β → List (String × β)
  | [], k, v => [(k, v)]
  | (k', v') :: rest, k, v =>
    if k' = k then (k', v) :: rest else (k', v') :: setProp rest k v

/-- Modelled from the spec: d3's `selection.attr(name, value)` with a constant: a
null or undefined value removes the attribute, any other value is set as a string. -/
def d3_attr (attrs : List (String × String)) (name : String) (value : JsVal) :
    List (String × String) :=
  match value with
  | .undefined => attrs.filter (fun p => p.1 != name)
  | .null => attrs.filter (fun p => p.1 != name)
  | v => setProp attrs name v.toKey

/-- Modelled from the spec: d3's `selection.attr(name)`, the attribute or null. -/
def d3_attr_get (attrs : List (String × String)) (name : String) : JsVal :=
  match attrs.lookup name with
  | some v => .str v
  | none => .null

/-- Modelled from the spec: whether `selectAll("." + classed)` matches the element,
`classed` being a class name: the element carries it in its class attribute. -/
def matchesClass (classed : String) (e : Element) : Bool :=
  match e.attrs.lookup "class" with
  | none => false
  | some c => (c.split Char.isWhitespace).contains classed

/-- Scales and path generation, which d3 computes in floating point, enter as
parameters: `scale sc v` is the linear scale `sc` applied to a cell, `path pts` is
the `d` string of d3's line generator for a non-empty array of points, and
`lineOther v` is what the line generator returns for a value that is not an array
of rows but carries a `length`. -/
structure D3 (Coord : Type) where
  scale : Scale → Option String → Coord
  path : List (Coord × Coord) → String
  lineOther : JsData → Except JsError (Option String)

/-- The heap of one `animint` instance.  The mount element `d3.select(to_select)`
is taken to exist; `dom` lists the SVG nodes appended to it in document order;
`SVGs` maps a geom name to the position of its surface in `dom`; `requests` records
the CSV fetches issued; `renderLog` is a ghost record of the `update_geom`
invocations, oldest first. -/
structure State where
  dom : List Surface
  Selectors : List (String × SelectorInfo)
  Plots : List (String × PlotInfo)
  Geoms : List (String × GeomInfo JsData)
  SVGs : List (String × Nat)
  requests : List (String × GeomInfo String)
  renderLog : List String

/-- What a call leaves behind: the heap and the exception that escaped, if any. -/
structure Outcome where
  state : State
  thrown : Option JsError

/-- The heap right after the constructor body has run and before any callback. -/
def State.init : State :=
  ⟨[], [], [], [], [], [], []⟩

/-- `Array.prototype.forEach` with a callback that may throw: the first exception
ends the loop. -/
def forEach (f : String → State → Outcome) : List String → State → Outcome
  | [], s => ⟨s, none⟩
  | a :: rest, s =>
    match (f a s).thrown with
    | none => forEach f rest (f a s).state
    | some e => ⟨(f a s).state, some e⟩

/-! ## The closures of the constructor -/

/-- Source `add_plot(p_name, p_info)` (lines 37-53). -/
def add_plot (svg_width svg_height : JsVal) (p_name : String) (p_info : PlotInfo)
    (s : State) : State :=
  let attrs :=
    d3_attr (d3_attr (d3_attr [] "id" (.str p_name)) "height" svg_height) "width" svg_width
  let svg : Surface :=
    { attrs := attrs
      children := []
      x := ⟨p_info.ranges.x, [.num 0, d3_attr_get attrs "width"]⟩
      y := ⟨p_info.ranges.y, [d3_attr_get attrs "height", .num 0]⟩ }
  { s with
    dom := s.dom ++ [svg]
    SVGs := p_info.geoms.foldl (fun m g_name => setProp m g_name s.dom.length) s.SVGs
    Plots := setProp s.Plots p_name p_info }

/-- Source `add_selector(s_name, s_info)` (lines 54-56). -/
def add_selector (s_name : String) (s_info : SelectorInfo) (s : State) : State :=
  { s with Selectors := setProp s.Selectors s_name s_info }

/-- The loop of `update_geom` (lines 61-67): for every entry of the subset mapping
other than `group`, read the selector named by the field and index `data` by its
selected value. -/
def drill (Selectors : List (String × SelectorInfo)) :
    List (String × String) → JsData → Except JsError JsData
  | [], data => .ok data
  | (aes_name, v_name) :: rest, data =>
    if aes_name != "group" then
      match Selectors.lookup v_name with
      | none => .error .typeError
      | some sel =>
        match getProp data sel.selected.toKey with
        | .error e => .error e
        | .ok d => drill Selectors rest d
    else drill Selectors rest data

/-- Source `toX` (lines 69-71): `svg.x(d[aes.x])`. -/
def toX {Coord : Type} (lib : D3 Coord) (svg : Surface) (aes : Aes) (d : Row) : Coord :=
  lib.scale svg.x (getcol aes.x d)

/-- Source `toY` (lines 72-74): `svg.y(d[aes.y])`. -/
def toY {Coord : Type} (lib : D3 Coord) (svg : Surface) (aes : Aes) (d : Row) : Coord :=
  lib.scale svg.y (getcol aes.y d)

/-- Modelled from the spec: d3's line generator `lineThing` with the accessors
`toX`, `toY` of `update_geom`: an array of rows becomes the path through the scaled
points, null when the array is empty; `undefined` has no `length` to read; any
other value without a `length` yields null. -/
def lineThing {Coord : Type} (lib : D3 Coord) (svg : Surface) (aes : Aes) :
    JsData → Except JsError (Option String)
  | .array [] => .ok none
  | .array (r :: rows) =>
    .ok (some (lib.path ((r :: rows).map (fun d => (toX lib svg aes d, toY lib svg aes d)))))
  | .undefined => .error .typeError
  | .str s => lib.lineOther (.str s)
  | d => match d.own "length" with
    | none => .ok none
    | some _ => lib.lineOther d

/-- Modelled from the spec: d3's `selection.data(kv)` on the elements matched by the
class selector, joined by index: the i-th matched child is rebound to `kv[i]`; the
data left over when the matched children run out form the enter selection. -/
def joinData (classed : String) : List Element → List Entry → List Element × List Entry
  | [], kv => ([], kv)
  | e :: es, kv =>
    if matchesClass classed e then
      match kv with
      | [] => (e :: es, [])
      | d :: kv' => ({ e with datum := some d } :: (joinData classed es kv').1,
          (joinData classed es kv').2)
    else (e :: (joinData classed es kv).1, (joinData classed es kv).2)

/-- Modelled from the spec: `.enter().append("path")`, one new path per datum. -/
def appendPaths (enter : List Entry) : List Element :=
  enter.map (fun d => ⟨"path", [], some d⟩)

/-- Modelled from the spec: d3's `.attr("d", fn)` with a function: the appended
paths are visited in order, a null result removes the attribute, and an exception
leaves the remaining paths as they are. -/
def attrEach (fn : Entry → Except JsError (Option String)) :
    List Element → List Element × Option JsError
  | [] => ([], none)
  | e :: es =>
    match e.datum with
    | none => (e :: (attrEach fn es).1, (attrEach fn es).2)
    | some d =>
      match fn d with
      | .error err => (e :: es, some err)
      | .ok none => ({ e with attrs := e.attrs.filter (fun p => p.1 != "d") }
          :: (attrEach fn es).1, (attrEach fn es).2)
      | .ok (some v) => ({ e with attrs := setProp e.attrs "d" v }
          :: (attrEach fn es).1, (attrEach fn es).2)

/-- Lines 75-91 of `update_geom` on the children of the surface: the class
selection, and for a line geom the data join, the appended paths and their `d`. -/
def render {Coord : Type} (lib : D3 Coord) (g_info : GeomInfo JsData) (data : JsData)
    (svg : Surface) : Surface × Option JsError :=
  if g_info.geom = "line" then
    let kv := d3_entries (d3_keys data)
    let joined := joinData g_info.classed svg.children kv
    let drawn := attrEach
      (fun d => match getProp data d.value with
        | .error e => .error e
        | .ok one_group => lineThing lib svg g_info.aes one_group)
      (appendPaths joined.2)
    ({ svg with children := joined.1 ++ drawn.1 }, drawn.2)
  else (svg, none)

/-- Source `update_geom(g_name)` (lines 57-92). -/
def update_geom {Coord : Type} (lib : D3 Coord) (g_name : String) (s : State) : Outcome :=
  let s := { s with renderLog := s.renderLog ++ [g_name] }
  match s.Geoms.lookup g_name with
  | none => ⟨s, some .typeError⟩
  | some g_info =>
    match drill s.Selectors g_info.subset g_info.data with
    | .error e => ⟨s, some e⟩
    | .ok data =>
      match s.SVGs.lookup g_name with
      | none => ⟨s, some .typeError⟩
      | some i =>
        match s.dom[i]? with
        | none => ⟨s, some .typeError⟩
        | some svg =>
          ⟨{ s with dom := s.dom.set i (render lib g_info data svg).1 },
            (render lib g_info data svg).2⟩

/-- Source `update_selector(v_name, value)` (lines 93-97). -/
def update_selector {Coord : Type} (lib : D3 Coord) (v_name : String) (value : JsVal)
    (s : State) : Outcome :=
  match s.Selectors.lookup v_name with
  | none => ⟨s, some .typeError⟩
  | some sel =>
    let s1 := { s with Selectors := setProp s.Selectors v_name { sel with selected := value } }
    let o1 := forEach (update_geom lib) sel.hilite s1
    match o1.thrown with
    | some e => ⟨o1.state, some e⟩
    | none =>
      match o1.state.Selectors.lookup v_name with
      | none => ⟨o1.state, some .typeError⟩
      | some sel2 => forEach (update_geom lib) sel2.subset o1.state

/-- Source `add_geom(g_name, g_info)` (lines 24-36), the synchronous part: the CSV
fetch is issued and its callback runs later. -/
def add_geom (g_name : String) (g_info : GeomInfo String) (s : State) : State :=
  { s with requests := s.requests ++ [(g_name, g_info)] }

/-- The nested index `add_geom` builds from the CSV rows (lines 26-32): one
`nest.key(getcol(v_name))` per entry of the subset mapping, then `nest.map`. -/
def buildIndex (subset : List (String × String)) (response : List Row) : JsData :=
  d3_nest_map (subset.map Prod.snd) response

/-- The callback `add_geom` passes to `d3.csv` (lines 25-35); `response` is `none`
when the fetch delivered `undefined`. -/
def csvCallback {Coord : Type} (lib : D3 Coord) (g_name : String) (g_info : GeomInfo String)
    (response : Option (List Row)) (s : State) : Outcome :=
  match response, g_info.subset with
  | some rows, subset =>
    update_geom lib g_name
      { s with Geoms := (setProp s.Geoms g_name
          (GeomInfo.mk (buildIndex subset rows) subset g_info.aes g_info.classed g_info.geom)) }
  | none, [] =>
    update_geom lib g_name
      { s with Geoms := (setProp s.Geoms g_name
          (GeomInfo.mk JsData.undefined [] g_info.aes g_info.classed g_info.geom)) }
  | none, _ :: _ => ⟨s, some .typeError⟩

/-- The callback the constructor passes to `d3.json` (lines 100-113); `response` is
`none` when the fetch delivered `undefined`. -/
def manifestCallback (svg_width svg_height : JsVal) (response : Option Manifest)
    (s : State) : Outcome :=
  match response with
  | none => ⟨s, some .typeError⟩
  | some m =>
    let s1 := m.plots.foldl (fun st p => add_plot svg_width svg_height p.1 p.2 st) s
    let s2 := m.selectors.foldl (fun st p => add_selector p.1 p.2 st) s1
    ⟨m.geoms.foldl (fun st p => add_geom p.1 p.2 st) s2, none⟩

/-! ## Vocabulary of the properties -/

/-- Walk along a key path through own properties; `none` when some key of the path
is not present. -/
def ownPath : JsData → List String → Option JsData
  | d, [] => some d
  | d, k :: ks => (d.own k).bind (fun c => ownPath c ks)

/-- The row carries the values `vs` in the fields `fs`, position by position, each
cell compared through the string form under which d3 files it. -/
def rowMatches : List String → List String → Row → Bool
  | f :: fs, v :: vs, r => decide (keyString (getcol f r) = v) && rowMatches fs vs r
  | _, _, _ => true

/-- The row passes the selectors: every entry of the subset mapping other than
`group` names a selector that exists and whose selected value, as a string, is the
row's cell in that field. -/
def rowSelected (Selectors : List (String × SelectorInfo)) (subset : List (String × String))
    (r : Row) : Bool :=
  subset.all (fun p => p.1 == "group" ||
    (Selectors.lookup p.2).map (fun sel => sel.selected.toKey) == some (keyString (getcol p.2 r)))

/-- The selected subset of a geom: its rows that pass the selectors, in CSV order. -/
def selectedRows (Selectors : List (String × SelectorInfo)) (subset : List (String × String))
    (rows : List Row) : List Row :=
  rows.filter (rowSelected Selectors subset)

/-- The text of field `f` of a CSV row as a key path spells it: the cell under
column `f`, and `undefined` for a row that has no such column. -/
def fieldText (f : String) (r : Row) : String :=
  match r.lookup f with
  | some s => s
  | none => "undefined"

/-- The point of a row on a surface: the x scale of the surface applied to the cell
in column `aes.x`, and the y scale of the surface applied to the cell in column
`aes.y`. -/
def scaledPoint {Coord : Type} (lib : D3 Coord) (svg : Surface) (aes : Aes) (r : Row) :
    Coord × Coord :=
  (lib.scale svg.x (r.lookup aes.x), lib.scale svg.y (r.lookup aes.y))

/-- The path element expected for the datum `e` of a line geom grouped by the field
`gf`: its `d` is the line generator over the scaled points of the rows of `rows`
whose field `gf` reads `e.value`, in the order of `rows`. -/
def groupPath {Coord : Type} (lib : D3 Coord) (svg : Surface) (aes : Aes) (gf : String)
    (rows : List Row) (e : Entry) : Element :=
  ⟨"path", [("d", lib.path ((rows.filter
      (fun r => decide (fieldText gf r = e.value))).map (scaledPoint lib svg aes)))],
    some e⟩

/-- The geoms a loop `list.forEach(update_geom)` started on heap `s` invokes: the
listed geoms in order, up to and including the first whose render throws. -/
def rendersUntilThrow {Coord : Type} (lib : D3 Coord) : List String → State → List String
  | [], _ => []
  | g :: rest, s =>
    match (update_geom lib g s).thrown with
    | none => g :: rendersUntilThrow lib rest (update_geom lib g s).state
    | some _ => [g]

/-- The heap after the renders of the listed geoms, one after the other. -/
def afterRenders {Coord : Type} (lib : D3 Coord) (calls : List String) (s : State) : State :=
  calls.foldl (fun st g => (update_geom lib g st).state) s

/-- The attribute value `selection.attr(name, v)` leaves readable: null when `v`
removed the attribute, else the string form of `v`. -/
def attrOf (v : JsVal) : JsVal :=
  match v with
  | .undefined => .null
  | .null => .null
  | w => .str w.toKey

/-! ## Sample page -/

/-- A stand-in for d3's numeric parts: the scale returns the cell as it is and the
line generator joins the points with `M` and `L`. -/
def demoLib : D3 String :=
  { scale := fun _ v => keyString v
    path := fun pts => "M" ++ String.intercalate "L" (pts.map (fun p => p.1 ++ "," ++ p.2))
    lineOther := fun _ => .ok none }

/-- Four CSV rows over the columns year, country, x and y. -/
def demoRows : List Row :=
  [[("year", "2000"), ("country", "FR"), ("x", "1"), ("y", "2")],
   [("year", "2001"), ("country", "FR"), ("x", "2"), ("y", "3")],
   [("year", "2001"), ("country", "DE"), ("x", "2"), ("y", "5")],
   [("year", "2001"), ("country", "FR"), ("x", "3"), ("y", "4")]]

/-- A line geom filtered by the selector `year` and grouped by country, with
`group` as the last entry of its subset mapping. -/
def demoGeom : GeomInfo String :=
  ⟨"scatter.csv", [("year", "year"), ("group", "country")], ⟨"x", "y"⟩, "scatterGeom", "line"⟩

/-- The same geom with `group` as the first entry of its subset mapping. -/
def groupFirstGeom : GeomInfo String :=
  ⟨"scatter.csv", [("group", "country"), ("year", "year")], ⟨"x", "y"⟩, "scatterGeom", "line"⟩

/-- A manifest with one plot declared 400 by 300, the selector `year` and the geom
`scatterGeom`. -/
def demoManifest : Manifest :=
  { plots := [("plot1", ⟨⟨[0, 10], [0, 10]⟩, ["scatterGeom"], .num 400, .num 300⟩)]
    selectors := [("year", ⟨.num 2000, [], ["scatterGeom"]⟩)]
    geoms := [("scatterGeom", demoGeom)] }

/-- The page after the manifest callback of `new animint(sel, file, 100, 50)`. -/
def demoPending : State :=
  (manifestCallback (.num 100) (.num 50) (some demoManifest) State.init).state

/-- The page once the CSV of `scatterGeom` has arrived. -/
def demoLoaded : State :=
  (csvCallback demoLib "scatterGeom" demoGeom (some demoRows) demoPending).state

/-- A manifest whose selector `year` lists `labelGeom` under hilite and
`scatterGeom` under subset; both geoms are hosted by the one plot. -/
def twoGeomManifest : Manifest :=
  { plots := [("plot1", ⟨⟨[0, 10], [0, 10]⟩, ["labelGeom", "scatterGeom"], .num 400, .num 300⟩)]
    selectors := [("year", ⟨.num 2000, ["labelGeom"], ["scatterGeom"]⟩)]
    geoms := [("labelGeom", ⟨"label.csv", [("year", "year")], ⟨"x", "y"⟩, "labelGeom", "text"⟩),
      ("scatterGeom", demoGeom)] }

/-- The page of `twoGeomManifest` at a moment when the CSV of `scatterGeom` has
arrived and the CSV of `labelGeom` has not. -/
def twoGeomPage : State :=
  (csvCallback demoLib "scatterGeom" demoGeom (some demoRows)
    (manifestCallback (.num 100) (.num 50) (some twoGeomManifest) State.init).state).state

/-- A manifest whose selector `year` lists both geoms under subset, `labelGeom`
first. -/
def subsetPairManifest : Manifest :=
  { plots := [("plot1", ⟨⟨[0, 10], [0, 10]⟩, ["labelGeom", "scatterGeom"], .num 400, .num 300⟩)]
    selectors := [("year", ⟨.num 2000, [], ["labelGeom", "scatterGeom"]⟩)]
    geoms := [("labelGeom", ⟨"label.csv", [("year", "year")], ⟨"x", "y"⟩, "labelGeom", "text"⟩),
      ("scatterGeom", demoGeom)] }

/-- The page of `subsetPairManifest` at a moment when the CSV of `scatterGeom` has
arrived and the CSV of `labelGeom` has not. -/
def subsetPairPage : State :=
  (csvCallback demoLib "scatterGeom" demoGeom (some demoRows)
    (manifestCallback (.num 100) (.num 50) (some subsetPairManifest) State.init).state).state

/-- The page of `twoGeomManifest` once both CSV files have arrived; `labelGeom` is
of kind `text`. -/
def bothLoaded : State :=
  (csvCallback demoLib "labelGeom"
    ⟨"label.csv", [("year", "year")], ⟨"x", "y"⟩, "labelGeom", "text"⟩ (some demoRows)
    twoGeomPage).state

/-- The sample manifest with `groupFirstGeom` in place of `demoGeom` and with 2001
as the selected year. -/
def groupFirstManifest : Manifest :=
  { plots := [("plot1", ⟨⟨[0, 10], [0, 10]⟩, ["scatterGeom"], .num 400, .num 300⟩)]
    selectors := [("year", ⟨.num 2001, [], ["scatterGeom"]⟩)]
    geoms := [("scatterGeom", groupFirstGeom)] }

/-- The page of `groupFirstManifest` after the manifest callback. -/
def groupFirstPending : State :=
  (manifestCallback (.num 100) (.num 50) (some groupFirstManifest) State.init).state

/-- The page of `groupFirstManifest` once the CSV has arrived and the callback of
`add_geom` has stored the geom and rendered it for the first time. -/
def groupFirstPage : State :=
  (csvCallback demoLib "scatterGeom" groupFirstGeom (some demoRows) groupFirstPending).state

/-- The heap inside the callback of `add_geom` for `scatterGeom`, after line 33 has
stored the geom and before line 34 renders it. -/
def demoStored : State :=
  { demoPending with Geoms := (setProp demoPending.Geoms "scatterGeom"
      (GeomInfo.mk (buildIndex demoGeom.subset demoRows) demoGeom.subset demoGeom.aes
        demoGeom.classed demoGeom.geom)) }

/-- The same moment on the page of `groupFirstManifest`. -/
def groupFirstStored : State :=
  { groupFirstPending with Geoms := (setProp groupFirstPending.Geoms "scatterGeom"
      (GeomInfo.mk (buildIndex groupFirstGeom.subset demoRows) groupFirstGeom.subset
        groupFirstGeom.aes groupFirstGeom.classed groupFirstGeom.geom)) }

/-- A line geom filtered by the selector `year` whose subset mapping has no `group`
entry. -/
def noGroupGeom : GeomInfo String :=
  ⟨"scatter.csv", [("year", "year")], ⟨"x", "y"⟩, "scatterGeom", "line"⟩

/-- The heap inside the callback of `add_geom` for `noGroupGeom` on the page of
`groupFirstManifest` (year 2001 selected), after the geom is stored and before it is
rendered. -/
def noGroupStored : State :=
  { groupFirstPending with Geoms := (setProp groupFirstPending.Geoms "scatterGeom"
      (GeomInfo.mk (buildIndex noGroupGeom.subset demoRows) noGroupGeom.subset
        noGroupGeom.aes noGroupGeom.classed noGroupGeom.geom)) }

/-- A stand-in for d3's numeric parts that keeps the scale visible: a scaled cell
is the cell followed by the range of the scale that was applied. -/
def tagLib : D3 String :=
  { scale := fun sc v =>
      keyString v ++ "@" ++ String.intercalate ":" (sc.range.map JsVal.toKey)
    path := fun pts => "M" ++ String.intercalate "L" (pts.map (fun p => p.1 ++ "," ++ p.2))
    lineOther := fun _ => .ok none }

/-- The sample manifest with 2001 as the selected year. -/
def year2001Manifest : Manifest :=
  { plots := [("plot1", ⟨⟨[0, 10], [0, 10]⟩, ["scatterGeom"], .num 400, .num 300⟩)]
    selectors := [("year", ⟨.num 2001, [], ["scatterGeom"]⟩)]
    geoms := [("scatterGeom", demoGeom)] }

/-- The heap inside the callback of `add_geom` for `scatterGeom` on the page of
`year2001Manifest`, after the geom is stored and before it is rendered. -/
def year2001Stored : State :=
  { (manifestCallback (.num 100) (.num 50) (some year2001Manifest) State.init).state with
    Geoms := (setProp
      (manifestCallback (.num 100) (.num 50) (some year2001Manifest) State.init).state.Geoms
      "scatterGeom"
      (GeomInfo.mk (buildIndex demoGeom.subset demoRows) demoGeom.subset demoGeom.aes
        demoGeom.classed demoGeom.geom)) }

/-- The surface of the sample plot as `add_plot` creates it. -/
def demoSurface : Surface :=
  { attrs := [("id", "plot1"), ("height", "50"), ("width", "100")]
    children := []
    x := ⟨[0, 10], [.num 0, .str "100"]⟩
    y := ⟨[0, 10], [.str "50", .num 0]⟩ }

/-! ## Grouping of rows by key -/

theorem beq_false_of_ne {a b : String} (h : ¬ a = b) : (a == b) = false := by
  simpa using h

theorem lookup_bucketPush (m : List (String × List Row)) (k : String) (d : Row) (k' : String) :
    (bucketPush m k d).lookup k' =
      if k' = k then some ((m.lookup k).getD [] ++ [d]) else m.lookup k' := by
  induction m with
  | nil =>
    by_cases h : k' = k
    · simp [bucketPush, List.lookup, h]
    · simp [bucketPush, List.lookup, h, beq_false_of_ne h]
  | cons p rest ih =>
    obtain ⟨k0, vs⟩ := p
    by_cases h0 : k0 = k
    · subst h0
      by_cases h : k' = k0
      · simp [bucketPush, List.lookup_cons, h]
      · simp [bucketPush, List.lookup_cons, h, beq_false_of_ne h]
    · by_cases h : k' = k
      · subst h
        have h1 : (k' == k0) = false := beq_false_of_ne (fun e => h0 e.symm)
        simp [bucketPush, List.lookup_cons, h0, h1, ih]
      · by_cases h2 : k' = k0
        · simp [bucketPush, List.lookup_cons, h0, h, h2, ih]
        · simp [bucketPush, List.lookup_cons, h0, h, h2, ih, beq_false_of_ne h2]

theorem lookup_foldl_bucketPush (key : Row → String) (rows : List Row)
    (m : List (String × List Row)) (k : String) :
    (rows.foldl (fun m d => bucketPush m (key d) d) m).lookup k =
      if m.lookup k = none ∧ rows.filter (fun r => key r = k) = [] then none
      else some ((m.lookup k).getD [] ++ rows.filter (fun r => key r = k)) := by
  induction rows generalizing m with
  | nil =>
    cases h : m.lookup k <;> simp [h]
  | cons d rest ih =>
    simp only [List.foldl_cons]
    rw [ih, lookup_bucketPush]
    by_cases hk : k = key d
    · subst hk
      simp
    · have hk' : ¬ key d = k := fun e => hk e.symm
      have hf : (d :: rest).filter (fun r => key r = k) = rest.filter (fun r => key r = k) := by
        simp [List.filter_cons, hk']
      rw [if_neg hk, hf]

theorem lookup_valuesByKey (v_name : String) (rows : List Row) (k : String) :
    (valuesByKey v_name rows).lookup k =
      if rows.filter (fun r => keyString (getcol v_name r) = k) = [] then none
      else some (rows.filter (fun r => keyString (getcol v_name r) = k)) := by
  unfold valuesByKey
  rw [lookup_foldl_bucketPush (fun r => keyString (getcol v_name r))]
  simp

theorem lookup_map_snd {β γ : Type} (f : β → γ) (l : List (String × β)) (k : String) :
    (l.map (fun kv => (kv.1, f kv.2))).lookup k = (l.lookup k).map f := by
  induction l with
  | nil => rfl
  | cons p rest ih =>
    obtain ⟨k0, b⟩ := p
    by_cases h : k = k0
    · simp [List.lookup_cons, h]
    · simp [List.lookup_cons, beq_false_of_ne h, ih]

theorem filter_rowMatches_cons (k v : String) (ks vs : List String) (rows : List Row) :
    rows.filter (rowMatches (k :: ks) (v :: vs)) =
      (rows.filter (fun r => keyString (getcol k r) = v)).filter (rowMatches ks vs) := by
  rw [List.filter_filter]
  congr 1
  funext r
  simp [rowMatches, Bool.and_comm]

theorem ownPath_nest (ks : List String) :
    ∀ (vs rest : List String) (rows : List Row), ks.length = vs.length →
      ownPath (d3_nest_map (ks ++ rest) rows) vs =
        if ks ≠ [] ∧ rows.filter (rowMatches ks vs) = [] then none
        else some (d3_nest_map rest (rows.filter (rowMatches ks vs))) := by
  induction ks with
  | nil =>
    intro vs rest rows h
    cases vs with
    | nil => simp [ownPath, rowMatches]
    | cons v vs => simp at h
  | cons k ks ih =>
    intro vs rest rows h
    cases vs with
    | nil => simp at h
    | cons v vs =>
      have hl : ks.length = vs.length := by simpa using h
      rw [filter_rowMatches_cons]
      simp only [List.cons_append, d3_nest_map, ownPath, JsData.own]
      rw [lookup_map_snd, lookup_valuesByKey]
      by_cases hf : rows.filter (fun r => keyString (getcol k r) = v) = []
      · simp [hf]
      · rw [if_neg hf]
        simp only [Option.map_some', Option.some_bind]
        rw [List.append_eq, ih vs rest _ hl]
        by_cases hks : ks = []
        · subst hks
          cases vs with
          | nil => simp [rowMatches, hf]
          | cons v vs => simp at hl
        · simp [hks]

/-! ## The leaves of the nested index -/

theorem flatten_bucketPush (m : List (String × List Row)) (k : String) (d : Row) :
    ((bucketPush m k d).map Prod.snd).flatten.Perm ((m.map Prod.snd).flatten ++ [d]) := by
  induction m with
  | nil => simp [bucketPush]
  | cons p rest ih =>
    obtain ⟨k0, vs⟩ := p
    by_cases h : k0 = k
    · simp only [bucketPush, h, if_true, List.map_cons, List.flatten_cons, List.append_assoc]
      exact List.Perm.append_left vs List.perm_append_comm
    · simp only [bucketPush, h, if_false, List.map_cons, List.flatten_cons, List.append_assoc]
      exact List.Perm.append_left vs ih

theorem flatten_foldl_bucketPush (key : Row → String) (rows : List Row)
    (m : List (String × List Row)) :
    ((rows.foldl (fun m d => bucketPush m (key d) d) m).map Prod.snd).flatten.Perm
      ((m.map Prod.snd).flatten ++ rows) := by
  induction rows generalizing m with
  | nil => simp
  | cons d rest ih =>
    simp only [List.foldl_cons]
    refine (ih _).trans ?_
    have h := (flatten_bucketPush m (key d) d).append_right rest
    simpa using h

theorem flatten_valuesByKey (v_name : String) (rows : List Row) :
    ((valuesByKey v_name rows).map Prod.snd).flatten.Perm rows := by
  have h := flatten_foldl_bucketPush (fun r => keyString (getcol v_name r)) rows []
  simpa [valuesByKey] using h

theorem leaves_map_nest (ks : List String)
    (ih : ∀ rows, (d3_nest_map ks rows).leaves.flatten.Perm rows)
    (l : List (String × List Row)) :
    (leavesOfProps (l.map (fun kv => (kv.1, d3_nest_map ks kv.2)))).flatten.Perm
      (l.map Prod.snd).flatten := by
  induction l with
  | nil => simp [leavesOfProps]
  | cons p rest ihl =>
    simp only [List.map_cons, leavesOfProps, List.flatten_append, List.flatten_cons]
    exact List.Perm.append (ih p.2) ihl

theorem leaves_nest_perm (ks : List String) :
    ∀ rows, (d3_nest_map ks rows).leaves.flatten.Perm rows := by
  induction ks with
  | nil => intro rows; simp [d3_nest_map, JsData.leaves]
  | cons k ks ih =>
    intro rows
    simp only [d3_nest_map, JsData.leaves]
    exact (leaves_map_nest ks ih _).trans (flatten_valuesByKey k rows)

/-! ## Heap updates and what a render leaves alone -/

theorem lookup_setProp_self {β : Type} (m : List (String × β)) (k : String) (v : β) :
    (setProp m k v).lookup k = some v := by
  induction m with
  | nil => simp [setProp, List.lookup_cons]
  | cons p rest ih =>
    obtain ⟨k0, b⟩ := p
    by_cases h : k0 = k
    · simp [setProp, h, List.lookup_cons]
    · have h1 : (k == k0) = false := beq_false_of_ne (fun e => h e.symm)
      simp [setProp, h, List.lookup_cons, h1, ih]

theorem lookup_setProp_ne {β : Type} (m : List (String × β)) (k u : String) (v : β)
    (hu : u ≠ k) : (setProp m k v).lookup u = m.lookup u := by
  induction m with
  | nil => simp [setProp, List.lookup_cons, beq_false_of_ne hu]
  | cons p rest ih =>
    obtain ⟨k0, b⟩ := p
    by_cases h : k0 = k
    · subst h
      simp [setProp, List.lookup_cons, beq_false_of_ne hu]
    · by_cases h2 : u = k0
      · simp [setProp, h, List.lookup_cons, h2]
      · simp [setProp, h, List.lookup_cons, beq_false_of_ne h2, ih]

theorem set_self {α : Type} (l : List α) (i : Nat) (a : α) (h : l[i]? = some a) :
    l.set i a = l := by
  induction l generalizing i with
  | nil => rfl
  | cons b rest ih =>
    cases i with
    | zero => simp at h; simp [h]
    | succ n => simp at h; simp [ih n h]

theorem getElem?_set_same {α : Type} (l : List α) (i : Nat) (a b : α) (h : l[i]? = some a) :
    (l.set i b)[i]? = some b := by
  induction l generalizing i with
  | nil => simp at h
  | cons c rest ih =>
    cases i with
    | zero => simp
    | succ n => simp at h; simpa using ih n h

theorem update_geom_frame {Coord : Type} (lib : D3 Coord) (g : String) (s : State) :
    (update_geom lib g s).state.Selectors = s.Selectors ∧
    (update_geom lib g s).state.Plots = s.Plots ∧
    (update_geom lib g s).state.Geoms = s.Geoms ∧
    (update_geom lib g s).state.SVGs = s.SVGs ∧
    (update_geom lib g s).state.requests = s.requests ∧
    (update_geom lib g s).state.renderLog = s.renderLog ++ [g] := by
  unfold update_geom
  simp only
  split
  · simp
  · split
    · simp
    · split
      · simp
      · split <;> simp

theorem forEach_update_geom {Coord : Type} (lib : D3 Coord) (l : List String) :
    ∀ s : State,
      (forEach (update_geom lib) l s).state.Selectors = s.Selectors ∧
      (forEach (update_geom lib) l s).state.Plots = s.Plots ∧
      (forEach (update_geom lib) l s).state.Geoms = s.Geoms ∧
      ∃ calls rest, calls ++ rest = l ∧
        (forEach (update_geom lib) l s).state.renderLog = s.renderLog ++ calls ∧
        ((forEach (update_geom lib) l s).thrown = none → rest = []) := by
  induction l with
  | nil =>
    intro s
    exact ⟨rfl, rfl, rfl, [], [], rfl, by simp [forEach], fun _ => rfl⟩
  | cons a rest ih =>
    intro s
    obtain ⟨f1, f2, f3, _, _, f6⟩ := update_geom_frame lib a s
    cases ht : (update_geom lib a s).thrown with
    | some e =>
      simp only [forEach, ht]
      exact ⟨f1, f2, f3, [a], rest, rfl, f6, fun h => by simp at h⟩
    | none =>
      simp only [forEach, ht]
      obtain ⟨i1, i2, i3, calls, tl, hc, hlog, hnone⟩ := ih (update_geom lib a s).state
      refine ⟨i1.trans f1, i2.trans f2, i3.trans f3, a :: calls, tl, by simp [hc], ?_, hnone⟩
      rw [hlog, f6]
      simp

/-! ## Selector update -/

theorem forEach_append (f : String → State → Outcome) (l1 l2 : List String) :
    ∀ s : State, forEach f (l1 ++ l2) s =
      match (forEach f l1 s).thrown with
      | none => forEach f l2 (forEach f l1 s).state
      | some e => ⟨(forEach f l1 s).state, some e⟩ := by
  induction l1 with
  | nil => intro s; rfl
  | cons a rest ih =>
    intro s
    cases ht : (f a s).thrown with
    | none =>
      simp only [List.cons_append, forEach, ht]
      exact ih (f a s).state
    | some e => simp only [List.cons_append, forEach, ht]

theorem update_selector_eq_forEach {Coord : Type} (lib : D3 Coord) (s : State)
    (v : String) (value : JsVal) (sel : SelectorInfo)
    (h : s.Selectors.lookup v = some sel) :
    update_selector lib v value s =
      forEach (update_geom lib) (sel.hilite ++ sel.subset)
        { s with Selectors := setProp s.Selectors v { sel with selected := value } } := by
  rw [forEach_append]
  unfold update_selector
  simp only [h]
  obtain ⟨f1, _⟩ := forEach_update_geom lib sel.hilite
    { s with Selectors := setProp s.Selectors v { sel with selected := value } }
  cases ht : (forEach (update_geom lib) sel.hilite
      { s with Selectors := setProp s.Selectors v { sel with selected := value } }).thrown with
  | some e => rfl
  | none =>
    simp only
    rw [f1]
    simp only [lookup_setProp_self]

theorem afterRenders_append {Coord : Type} (lib : D3 Coord) (pre : List String) (g : String)
    (s : State) :
    afterRenders lib (pre ++ [g]) s = (update_geom lib g (afterRenders lib pre s)).state := by
  simp [afterRenders, List.foldl_append]

theorem forEach_renders {Coord : Type} (lib : D3 Coord) (l : List String) :
    ∀ s : State,
      (forEach (update_geom lib) l s).state = afterRenders lib (rendersUntilThrow lib l s) s ∧
      (forEach (update_geom lib) l s).state.renderLog =
        s.renderLog ++ rendersUntilThrow lib l s ∧
      (∃ rest, rendersUntilThrow lib l s ++ rest = l) ∧
      ((forEach (update_geom lib) l s).thrown = none → rendersUntilThrow lib l s = l) ∧
      (∀ e, (forEach (update_geom lib) l s).thrown = some e →
        ∃ pre g, rendersUntilThrow lib l s = pre ++ [g] ∧
          (update_geom lib g (afterRenders lib pre s)).thrown = some e) ∧
      (∀ pre g post, rendersUntilThrow lib l s = pre ++ g :: post → post ≠ [] →
        (update_geom lib g (afterRenders lib pre s)).thrown = none) := by
  induction l with
  | nil =>
    intro s
    refine ⟨rfl, by simp [forEach, rendersUntilThrow], ⟨[], rfl⟩, fun _ => rfl, ?_, ?_⟩
    · intro e he
      simp [forEach] at he
    · intro pre g post hp _
      simp [rendersUntilThrow] at hp
  | cons a rest ih =>
    intro s
    obtain ⟨_, _, _, _, _, flog⟩ := update_geom_frame lib a s
    cases ht : (update_geom lib a s).thrown with
    | some e =>
      simp only [forEach, rendersUntilThrow, ht]
      refine ⟨rfl, flog, ⟨rest, rfl⟩, fun hn => by simp at hn, ?_, ?_⟩
      · intro e2 he2
        refine ⟨[], a, rfl, ?_⟩
        cases e
        cases e2
        exact ht
      · intro pre g post hp hpost
        cases pre with
        | nil =>
          simp only [List.nil_append, List.cons.injEq] at hp
          exact absurd hp.2.symm hpost
        | cons b pre2 =>
          simp only [List.cons_append, List.cons.injEq] at hp
          have := hp.2
          simp at this
    | none =>
      simp only [forEach, rendersUntilThrow, ht]
      obtain ⟨i1, i2, ⟨tl, i3⟩, i4, i5, i6⟩ := ih (update_geom lib a s).state
      refine ⟨?_, ?_, ⟨tl, by simp [i3]⟩, ?_, ?_, ?_⟩
      · rw [i1]
        rfl
      · rw [i2, flog]
        simp
      · intro hn
        rw [i4 hn]
      · intro e he
        obtain ⟨pre, g, hp, hthrow⟩ := i5 e he
        refine ⟨a :: pre, g, by simp [hp], ?_⟩
        exact hthrow
      · intro pre g post hp hpost
        cases pre with
        | nil =>
          simp only [List.nil_append, List.cons.injEq] at hp
          obtain ⟨hag, _⟩ := hp
          subst hag
          exact ht
        | cons b pre2 =>
          simp only [List.cons_append, List.cons.injEq] at hp
          obtain ⟨hab, hp2⟩ := hp
          subst hab
          exact i6 pre2 g post hp2 hpost

/-- C3 (as amended): for a selector `v` present in `Selectors`, `update_selector`
stores the new value and then invokes `update_geom` on the geoms of the hilite list
followed by the subset list, in listed order and on no other geom, up to and
including the first invocation that throws: every invocation before the last made
returned normally, an exception that escapes is the one thrown by the last
invocation made, and when no exception escapes every listed geom was invoked.  The
heap left behind is the heap after exactly those renders. -/
theorem update_selector_renders_listed {Coord : Type} (lib : D3 Coord) (s : State)
    (v : String) (value : JsVal) (sel : SelectorInfo)
    (h : s.Selectors.lookup v = some sel) :
    (update_selector lib v value s).state.renderLog =
        s.renderLog ++ rendersUntilThrow lib (sel.hilite ++ sel.subset)
          { s with Selectors := setProp s.Selectors v { sel with selected := value } } ∧
      (update_selector lib v value s).state =
        afterRenders lib (rendersUntilThrow lib (sel.hilite ++ sel.subset)
          { s with Selectors := setProp s.Selectors v { sel with selected := value } })
          { s with Selectors := setProp s.Selectors v { sel with selected := value } } ∧
      (∃ rest, rendersUntilThrow lib (sel.hilite ++ sel.subset)
          { s with Selectors := setProp s.Selectors v { sel with selected := value } } ++ rest =
        sel.hilite ++ sel.subset) ∧
      ((update_selector lib v value s).thrown = none →
        rendersUntilThrow lib (sel.hilite ++ sel.subset)
          { s with Selectors := setProp s.Selectors v { sel with selected := value } } =
        sel.hilite ++ sel.subset) ∧
      (∀ e, (update_selector lib v value s).thrown = some e →
        ∃ pre g, rendersUntilThrow lib (sel.hilite ++ sel.subset)
            { s with Selectors := setProp s.Selectors v { sel with selected := value } } =
            pre ++ [g] ∧
          (update_geom lib g (afterRenders lib pre
            { s with Selectors := setProp s.Selectors v { sel with selected := value } })).thrown =
            some e) ∧
      (∀ pre g post, rendersUntilThrow lib (sel.hilite ++ sel.subset)
          { s with Selectors := setProp s.Selectors v { sel with selected := value } } =
          pre ++ g :: post → post ≠ [] →
        (update_geom lib g (afterRenders lib pre
          { s with Selectors := setProp s.Selectors v { sel with selected := value } })).thrown =
          none) := by
  rw [update_selector_eq_forEach lib s v value sel h]
  have hlog : ({ s with Selectors := setProp s.Selectors v { sel with selected := value } } :
      State).renderLog = s.renderLog := rfl
  obtain ⟨k1, k2, k3, k4, k5, k6⟩ := forEach_renders lib (sel.hilite ++ sel.subset)
    { s with Selectors := setProp s.Selectors v { sel with selected := value } }
  rw [hlog] at k2
  exact ⟨k2, k1, k3, k4, k5, k6⟩

/-- C3, witness: on the sample page with both geoms loaded, selecting year 2001
renders `labelGeom` (hilite) and then `scatterGeom` (subset) and nothing throws;
on the pages where the CSV of `labelGeom` has not arrived, the same update invokes
`labelGeom` only, whether `scatterGeom` follows it in the other list or in the same
list, and the TypeError of that invocation escapes. -/
theorem update_selector_renders_listed_witness :
    subsetPairPage.Selectors.lookup "year" =
      some ⟨.num 2000, [], ["labelGeom", "scatterGeom"]⟩ ∧
    (update_selector demoLib "year" (.num 2001) subsetPairPage).state.renderLog =
      subsetPairPage.renderLog ++ ["labelGeom"] ∧
    (update_selector demoLib "year" (.num 2001) subsetPairPage).thrown = some .typeError ∧
    (update_selector demoLib "year" (.num 2001) subsetPairPage).state.renderLog =
      subsetPairPage.renderLog ++ rendersUntilThrow demoLib ([] ++ ["labelGeom", "scatterGeom"])
        { subsetPairPage with Selectors := (setProp subsetPairPage.Selectors "year"
            ⟨.num 2001, [], ["labelGeom", "scatterGeom"]⟩) } ∧
    bothLoaded.Selectors.lookup "year" = some ⟨.num 2000, ["labelGeom"], ["scatterGeom"]⟩ ∧
    (update_selector demoLib "year" (.num 2001) bothLoaded).state.renderLog =
      bothLoaded.renderLog ++ ["labelGeom", "scatterGeom"] ∧
    (update_selector demoLib "year" (.num 2001) bothLoaded).thrown = none ∧
    (update_selector demoLib "year" (.num 2001) twoGeomPage).state.renderLog =
      twoGeomPage.renderLog ++ ["labelGeom"] ∧
    (update_selector demoLib "year" (.num 2001) twoGeomPage).thrown = some .typeError ∧
    (update_selector demoLib "year" (.num 2001) bothLoaded).state.renderLog =
      bothLoaded.renderLog ++ rendersUntilThrow demoLib (["labelGeom"] ++ ["scatterGeom"])
        { bothLoaded with Selectors := (setProp bothLoaded.Selectors "year"
            ⟨.num 2001, ["labelGeom"], ["scatterGeom"]⟩) } ∧
    (update_selector demoLib "year" (.num 2001) twoGeomPage).state.renderLog =
      twoGeomPage.renderLog ++ rendersUntilThrow demoLib (["labelGeom"] ++ ["scatterGeom"])
        { twoGeomPage with Selectors := (setProp twoGeomPage.Selectors "year"
            ⟨.num 2001, ["labelGeom"], ["scatterGeom"]⟩) } :=
  ⟨by decide, by decide, by decide,
    (update_selector_renders_listed demoLib subsetPairPage "year" (.num 2001)
      ⟨.num 2000, [], ["labelGeom", "scatterGeom"]⟩ (by decide)).1,
    by decide, by decide, by decide, by decide, by decide,
    (update_selector_renders_listed demoLib bothLoaded "year" (.num 2001)
      ⟨.num 2000, ["labelGeom"], ["scatterGeom"]⟩ (by decide)).1,
    (update_selector_renders_listed demoLib twoGeomPage "year" (.num 2001)
      ⟨.num 2000, ["labelGeom"], ["scatterGeom"]⟩ (by decide)).1⟩

/-- C3, counterexample: on a page where the CSV of `labelGeom` has not arrived, the
update of `year` stops in `update_geom("labelGeom")`, and `scatterGeom`, listed
under subset, is never invoked. -/
theorem update_selector_stops_at_throw :
    twoGeomPage.Selectors.lookup "year" = some ⟨.num 2000, ["labelGeom"], ["scatterGeom"]⟩ ∧
    (update_selector demoLib "year" (.num 2001) twoGeomPage).state.renderLog =
      twoGeomPage.renderLog ++ ["labelGeom"] ∧
    (update_selector demoLib "year" (.num 2001) twoGeomPage).state.renderLog ≠
      twoGeomPage.renderLog ++ (["labelGeom"] ++ ["scatterGeom"]) ∧
    (update_selector demoLib "year" (.num 2001) twoGeomPage).thrown = some .typeError := by
  decide

/-- C10: for a selector `v` present in `Selectors`, `update_selector(v, value)`
leaves `v` with the new selected value and its old hilite and subset lists, leaves
every other selector, `Plots` and `Geoms` (nested indexes included) as they were,
and `update_geom` changes none of `Selectors`, `Plots`, `Geoms`. -/
theorem update_selector_frame {Coord : Type} (lib : D3 Coord) (s : State)
    (v : String) (value : JsVal) (sel : SelectorInfo)
    (h : s.Selectors.lookup v = some sel) :
    (update_selector lib v value s).state.Selectors.lookup v =
        some ⟨value, sel.hilite, sel.subset⟩ ∧
      (∀ u, u ≠ v →
        (update_selector lib v value s).state.Selectors.lookup u = s.Selectors.lookup u) ∧
      (update_selector lib v value s).state.Plots = s.Plots ∧
      (update_selector lib v value s).state.Geoms = s.Geoms ∧
      (∀ (g : String) (t : State),
        (update_geom lib g t).state.Selectors = t.Selectors ∧
        (update_geom lib g t).state.Plots = t.Plots ∧
        (update_geom lib g t).state.Geoms = t.Geoms) := by
  have key : (update_selector lib v value s).state.Selectors =
        setProp s.Selectors v { sel with selected := value } ∧
      (update_selector lib v value s).state.Plots = s.Plots ∧
      (update_selector lib v value s).state.Geoms = s.Geoms := by
    unfold update_selector
    simp only [h]
    obtain ⟨f1, f2, f3, _⟩ := forEach_update_geom lib sel.hilite
      { s with Selectors := setProp s.Selectors v { sel with selected := value } }
    cases ht : (forEach (update_geom lib) sel.hilite
        { s with Selectors := setProp s.Selectors v { sel with selected := value } }).thrown with
    | some e => exact ⟨f1, f2, f3⟩
    | none =>
      simp only
      rw [f1]
      simp only [lookup_setProp_self]
      obtain ⟨g1, g2, g3, _⟩ := forEach_update_geom lib sel.subset
        (forEach (update_geom lib) sel.hilite
          { s with Selectors := setProp s.Selectors v { sel with selected := value } }).state
      exact ⟨g1.trans f1, g2.trans f2, g3.trans f3⟩
  obtain ⟨k1, k2, k3⟩ := key
  refine ⟨?_, ?_, k2, k3, ?_⟩
  · rw [k1, lookup_setProp_self]
  · intro u hu
    rw [k1, lookup_setProp_ne _ _ _ _ hu]
  · intro g t
    obtain ⟨f1, f2, f3, _⟩ := update_geom_frame lib g t
    exact ⟨f1, f2, f3⟩

/-- C10, witness: the frame of selecting year 2001 on the loaded sample page. -/
theorem update_selector_frame_witness :
    demoLoaded.Selectors.lookup "year" = some ⟨.num 2000, [], ["scatterGeom"]⟩ ∧
    (update_selector demoLib "year" (.num 2001) demoLoaded).state.Selectors.lookup "year" =
      some ⟨.num 2001, [], ["scatterGeom"]⟩ :=
  ⟨by decide, (update_selector_frame demoLib demoLoaded "year" (.num 2001)
    ⟨.num 2000, [], ["scatterGeom"]⟩ (by decide)).1⟩

/-! ## Geoms of another kind, and a manifest that did not arrive -/

/-- C8: for a geom stored in `Geoms` whose kind is not `line`, `update_geom`
leaves every surface with the children and attributes it had, whatever the
selectors hold. -/
theorem update_geom_noop_unless_line {Coord : Type} (lib : D3 Coord) (s : State)
    (g : String) (g_info : GeomInfo JsData)
    (h : s.Geoms.lookup g = some g_info) (hk : g_info.geom ≠ "line") :
    (update_geom lib g s).state.dom = s.dom := by
  unfold update_geom
  simp only [h]
  split
  · rfl
  · split
    · rfl
    · split
      · rfl
      · next i _ svg hsvg =>
        simp only [render, hk, if_false]
        exact set_self _ _ _ hsvg

/-- C9: when the manifest fetch delivers `undefined`, the manifest callback ends
with a TypeError and leaves the heap as it found it; right after construction
that heap has no surface and empty `Plots`, `Selectors`, `Geoms` and `SVGs`. -/
theorem manifest_undefined_aborts (svg_width svg_height : JsVal) (s : State) :
    (manifestCallback svg_width svg_height none s).thrown = some .typeError ∧
    (manifestCallback svg_width svg_height none s).state = s ∧
    (manifestCallback svg_width svg_height none State.init).state.dom = [] ∧
    (manifestCallback svg_width svg_height none State.init).state.Plots = [] ∧
    (manifestCallback svg_width svg_height none State.init).state.Selectors = [] ∧
    (manifestCallback svg_width svg_height none State.init).state.Geoms = [] ∧
    (manifestCallback svg_width svg_height none State.init).state.SVGs = [] :=
  ⟨rfl, rfl, rfl, rfl, rfl, rfl, rfl⟩

/-- C8, witness: re-rendering the loaded `text` geom of the sample page. -/
theorem update_geom_noop_unless_line_witness :
    bothLoaded.Geoms.lookup "labelGeom" =
      some ⟨buildIndex [("year", "year")] demoRows, [("year", "year")], ⟨"x", "y"⟩,
        "labelGeom", "text"⟩ ∧
    (update_geom demoLib "labelGeom" bothLoaded).state.dom = bothLoaded.dom :=
  ⟨by rfl, update_geom_noop_unless_line demoLib bothLoaded "labelGeom"
    ⟨buildIndex [("year", "year")] demoRows, [("year", "year")], ⟨"x", "y"⟩,
      "labelGeom", "text"⟩ (by rfl) (by decide)⟩

/-! ## Surfaces created from the manifest -/

theorem plot_attrs_read (svg_width svg_height : JsVal) (p_name : String) :
    d3_attr_get (d3_attr (d3_attr (d3_attr [] "id" (.str p_name)) "height" svg_height)
        "width" svg_width) "id" = .str p_name ∧
    d3_attr_get (d3_attr (d3_attr (d3_attr [] "id" (.str p_name)) "height" svg_height)
        "width" svg_width) "width" = attrOf svg_width ∧
    d3_attr_get (d3_attr (d3_attr (d3_attr [] "id" (.str p_name)) "height" svg_height)
        "width" svg_width) "height" = attrOf svg_height := by
  cases svg_width <;> cases svg_height <;> exact ⟨rfl, rfl, rfl⟩

theorem foldl_add_plot_dom (svg_width svg_height : JsVal) (plots : List (String × PlotInfo)) :
    ∀ s : State,
      (plots.foldl (fun st p => add_plot svg_width svg_height p.1 p.2 st) s).dom.map
          (fun sv => (sv.attrs, sv.children)) =
        s.dom.map (fun sv => (sv.attrs, sv.children)) ++ plots.map (fun p =>
          (d3_attr (d3_attr (d3_attr [] "id" (.str p.1)) "height" svg_height) "width" svg_width,
            ([] : List Element))) := by
  induction plots with
  | nil => intro s; simp
  | cons p rest ih =>
    intro s
    simp only [List.foldl_cons, List.map_cons]
    rw [ih]
    simp [add_plot]

theorem foldl_add_selector_dom (l : List (String × SelectorInfo)) :
    ∀ s : State, (l.foldl (fun st p => add_selector p.1 p.2 st) s).dom = s.dom := by
  induction l with
  | nil => intro s; rfl
  | cons p rest ih => intro s; simp only [List.foldl_cons]; rw [ih]; rfl

theorem foldl_add_geom_dom (l : List (String × GeomInfo String)) :
    ∀ s : State, (l.foldl (fun st p => add_geom p.1 p.2 st) s).dom = s.dom := by
  induction l with
  | nil => intro s; rfl
  | cons p rest ih => intro s; simp only [List.foldl_cons]; rw [ih]; rfl

/-- C5 (as amended): for a manifest with N plots the manifest callback completes
and appends exactly N SVG surfaces after those already there, one per plot in
manifest order, each empty, with id equal to the plot name and with the width and
height given to the constructor (no attribute when the argument is undefined). -/
theorem manifest_creates_surfaces (svg_width svg_height : JsVal) (m : Manifest) (s : State) :
    (manifestCallback svg_width svg_height (some m) s).thrown = none ∧
    (manifestCallback svg_width svg_height (some m) s).state.dom.length =
      s.dom.length + m.plots.length ∧
    (manifestCallback svg_width svg_height (some m) s).state.dom.map
        (fun sv => (d3_attr_get sv.attrs "id", d3_attr_get sv.attrs "width",
          d3_attr_get sv.attrs "height", sv.children)) =
      s.dom.map (fun sv => (d3_attr_get sv.attrs "id", d3_attr_get sv.attrs "width",
          d3_attr_get sv.attrs "height", sv.children)) ++
        m.plots.map (fun p => (JsVal.str p.1, attrOf svg_width, attrOf svg_height,
          ([] : List Element))) := by
  have hd : (manifestCallback svg_width svg_height (some m) s).state.dom =
      (m.plots.foldl (fun st p => add_plot svg_width svg_height p.1 p.2 st) s).dom := by
    simp only [manifestCallback]
    rw [foldl_add_geom_dom, foldl_add_selector_dom]
  have h := foldl_add_plot_dom svg_width svg_height m.plots s
  refine ⟨rfl, ?_, ?_⟩
  · rw [hd]
    have hl := congrArg List.length h
    simpa using hl
  · rw [hd]
    have h2 := congrArg (List.map (fun q : List (String × String) × List Element =>
      (d3_attr_get q.1 "id", d3_attr_get q.1 "width", d3_attr_get q.1 "height", q.2))) h
    simp only [List.map_map, List.map_append] at h2
    rw [show (fun sv : Surface => (d3_attr_get sv.attrs "id", d3_attr_get sv.attrs "width",
          d3_attr_get sv.attrs "height", sv.children)) =
        (fun q : List (String × String) × List Element =>
          (d3_attr_get q.1 "id", d3_attr_get q.1 "width", d3_attr_get q.1 "height", q.2)) ∘
        (fun sv : Surface => (sv.attrs, sv.children)) from rfl]
    rw [h2]
    congr 1
    apply List.map_congr_left
    intro p _
    obtain ⟨a1, a2, a3⟩ := plot_attrs_read svg_width svg_height p.1
    simp [Function.comp, a1, a2, a3]

/-- C5, counterexample: the plot of the sample manifest declares 400 by 300, the
constructor was given 100 by 50, and the surface is 100 by 50. -/
theorem surface_size_from_constructor :
    demoManifest.plots.map (fun p => (p.2.width, p.2.height)) = [(.num 400, .num 300)] ∧
    (manifestCallback (.num 100) (.num 50) (some demoManifest) State.init).state.dom.map
        (fun sv => (d3_attr_get sv.attrs "width", d3_attr_get sv.attrs "height")) =
      [(.str "100", .str "50")] ∧
    (manifestCallback (.num 100) (.num 50) (some demoManifest) State.init).state.dom.map
        (fun sv => (d3_attr_get sv.attrs "width", d3_attr_get sv.attrs "height")) ≠
      demoManifest.plots.map (fun p => (attrOf p.2.width, attrOf p.2.height)) := by
  decide

/-! ## The nested index of a geom -/

theorem fieldText_eq_key (f : String) (r : Row) :
    fieldText f r = keyString (getcol f r) := by
  unfold fieldText getcol
  cases r.lookup f <;> rfl

/-- C1: for a subset mapping listing the fields `a` then `b`, the nested index
`add_geom` builds has a key path `(va, vb)` exactly when some row reads `va` in
column `a` and `vb` in column `b`, and what sits there is the array of exactly
those rows, in their CSV order.  A row without the column reads `undefined`. -/
theorem nest_leaf_holds_matching_rows (aes_a aes_b a b : String) (rows : List Row)
    (va vb : String) :
    ownPath (buildIndex [(aes_a, a), (aes_b, b)] rows) [va, vb] =
      if rows.filter (fun r => decide (fieldText a r = va) &&
          decide (fieldText b r = vb)) = [] then none
      else some (.array (rows.filter (fun r => decide (fieldText a r = va) &&
          decide (fieldText b r = vb)))) := by
  have h := ownPath_nest [a, b] [va, vb] [] rows rfl
  have hf : rows.filter (rowMatches [a, b] [va, vb]) =
      rows.filter (fun r => decide (fieldText a r = va) &&
          decide (fieldText b r = vb)) := by
    congr 1
    funext r
    simp [rowMatches, fieldText_eq_key]
  rw [hf] at h
  simpa [buildIndex, d3_nest_map] using h

/-- C1, on the sample rows nested by year then country: the path (2001, FR) holds
the second and fourth row in that order, the path (2001, DE) the third row, the
path (2000, FR) the first, and there is no path (2000, DE); the same follows from
the general statement. -/
theorem nest_leaf_holds_matching_rows_witness :
    ownPath (buildIndex [("year", "year"), ("group", "country")] demoRows) ["2001", "FR"] =
      some (.array [[("year", "2001"), ("country", "FR"), ("x", "2"), ("y", "3")],
        [("year", "2001"), ("country", "FR"), ("x", "3"), ("y", "4")]]) ∧
    ownPath (buildIndex [("year", "year"), ("group", "country")] demoRows) ["2001", "DE"] =
      some (.array [[("year", "2001"), ("country", "DE"), ("x", "2"), ("y", "5")]]) ∧
    ownPath (buildIndex [("year", "year"), ("group", "country")] demoRows) ["2000", "FR"] =
      some (.array [[("year", "2000"), ("country", "FR"), ("x", "1"), ("y", "2")]]) ∧
    ownPath (buildIndex [("year", "year"), ("group", "country")] demoRows) ["2000", "DE"] =
      none ∧
    demoRows.filter (fun r => decide (fieldText "year" r = "2001") &&
        decide (fieldText "country" r = "FR")) =
      [[("year", "2001"), ("country", "FR"), ("x", "2"), ("y", "3")],
        [("year", "2001"), ("country", "FR"), ("x", "3"), ("y", "4")]] ∧
    ownPath (buildIndex [("year", "year"), ("group", "country")] demoRows) ["2001", "FR"] =
      (if demoRows.filter (fun r => decide (fieldText "year" r = "2001") &&
          decide (fieldText "country" r = "FR")) = [] then none
      else some (.array (demoRows.filter (fun r => decide (fieldText "year" r = "2001") &&
          decide (fieldText "country" r = "FR"))))) :=
  ⟨by rfl, by rfl, by rfl, by rfl, by decide,
    nest_leaf_holds_matching_rows "year" "group" "year" "country" demoRows "2001" "FR"⟩

/-- C2: the leaves of the nested index `add_geom` builds partition the CSV rows:
their row counts add up to the number of rows, and together they hold every row
exactly as often as the CSV does. -/
theorem leaves_partition_rows (subset : List (String × String)) (rows : List Row) :
    ((buildIndex subset rows).leaves.map List.length).sum = rows.length ∧
    (buildIndex subset rows).leaves.flatten.Perm rows := by
  have h := leaves_nest_perm (subset.map Prod.snd) rows
  refine ⟨?_, h⟩
  rw [← List.length_flatten]
  exact h.length_eq

/-! ## Repeated renders of a line geom -/

theorem matchesClass_of_no_class (classed : String) (e : Element)
    (h : e.attrs.lookup "class" = none) : matchesClass classed e = false := by
  simp [matchesClass, h]

theorem joinData_no_match (classed : String) (children : List Element) (kv : List Entry)
    (h : ∀ c ∈ children, c.attrs.lookup "class" = none) :
    joinData classed children kv = (children, kv) := by
  induction children with
  | nil => rfl
  | cons e es ih =>
    have he : matchesClass classed e = false :=
      matchesClass_of_no_class classed e (h e (List.mem_cons_self _ _))
    have hes := ih (fun c hc => h c (List.mem_cons_of_mem _ hc))
    simp [joinData, he, hes]

theorem attrEach_length (fn : Entry → Except JsError (Option String)) (l : List Element) :
    (attrEach fn l).1.length = l.length := by
  induction l with
  | nil => rfl
  | cons e es ih =>
    simp only [attrEach]
    split
    · simp [ih]
    · split <;> simp [ih]

theorem attrEach_no_class (fn : Entry → Except JsError (Option String)) (l : List Element)
    (h : ∀ e ∈ l, e.attrs = []) :
    ∀ e ∈ (attrEach fn l).1, e.attrs.lookup "class" = none := by
  induction l with
  | nil => intro e he; simp [attrEach] at he
  | cons a es ih =>
    have ha : a.attrs = [] := h a (List.mem_cons_self _ _)
    have ih2 := ih (fun c hc => h c (List.mem_cons_of_mem _ hc))
    have hes : ∀ e ∈ es, e.attrs.lookup "class" = none := by
      intro e he
      rw [h e (List.mem_cons_of_mem _ he)]
      rfl
    intro e he
    simp only [attrEach] at he
    split at he
    · rcases List.mem_cons.mp he with rfl | h2
      · rw [ha]; rfl
      · exact ih2 e h2
    · split at he
      · rcases List.mem_cons.mp he with rfl | h2
        · rw [ha]; rfl
        · exact hes e h2
      · rcases List.mem_cons.mp he with rfl | h2
        · simp only [ha]; rfl
        · exact ih2 e h2
      · rcases List.mem_cons.mp he with rfl | h2
        · simp only [ha]; rfl
        · exact ih2 e h2

theorem appendPaths_attrs (kv : List Entry) : ∀ e ∈ appendPaths kv, e.attrs = [] := by
  intro e he
  simp only [appendPaths, List.mem_map] at he
  obtain ⟨d, _, rfl⟩ := he
  rfl

theorem d3_entries_length (ks : List String) : (d3_entries ks).length = ks.length := by
  simp [d3_entries]

theorem update_geom_line_step {Coord : Type} (lib : D3 Coord) (s : State) (g : String)
    (g_info : GeomInfo JsData) (data : JsData) (i : Nat) (svg : Surface)
    (hg : s.Geoms.lookup g = some g_info) (hline : g_info.geom = "line")
    (hd : drill s.Selectors g_info.subset g_info.data = .ok data)
    (hs : s.SVGs.lookup g = some i) (hsvg : s.dom[i]? = some svg)
    (hc : ∀ c ∈ svg.children, c.attrs.lookup "class" = none) :
    ∃ new : List Element, new.length = (d3_keys data).length ∧
      (∀ e ∈ new, e.attrs.lookup "class" = none) ∧
      (update_geom lib g s).state.dom =
        s.dom.set i { svg with children := svg.children ++ new } := by
  unfold update_geom
  simp only [hg, hd, hs, hsvg, render, hline, if_true]
  rw [joinData_no_match _ _ _ hc]
  refine ⟨_, ?_, ?_, rfl⟩
  · rw [attrEach_length]
    simp [appendPaths, d3_entries_length]
  · exact attrEach_no_class _ _ (appendPaths_attrs _)

/-- C6: `update_geom` is not idempotent on the surface.  For a line geom whose
drilled data has g keys, on a surface whose children carry no class attribute,
one invocation appends g path elements after the existing children and a second
invocation with the same selectors appends g more, leaving 2*g new paths; with
g >= 1 the second invocation therefore changes the surface again. -/
theorem update_geom_accumulates {Coord : Type} (lib : D3 Coord) (s : State) (g : String)
    (g_info : GeomInfo JsData) (data : JsData) (i : Nat) (svg : Surface)
    (hg : s.Geoms.lookup g = some g_info) (hline : g_info.geom = "line")
    (hd : drill s.Selectors g_info.subset g_info.data = .ok data)
    (hs : s.SVGs.lookup g = some i) (hsvg : s.dom[i]? = some svg)
    (hc : ∀ c ∈ svg.children, c.attrs.lookup "class" = none) :
    ∃ new1 new2 : List Element,
      new1.length = (d3_keys data).length ∧ new2.length = (d3_keys data).length ∧
      ((update_geom lib g s).state.dom[i]?).map (fun sv => sv.children) =
        some (svg.children ++ new1) ∧
      ((update_geom lib g (update_geom lib g s).state).state.dom[i]?).map
          (fun sv => sv.children) = some (svg.children ++ new1 ++ new2) ∧
      ((update_geom lib g (update_geom lib g s).state).state.dom[i]?).map
          (fun sv => sv.children.length) =
        some (svg.children.length + 2 * (d3_keys data).length) ∧
      (1 ≤ (d3_keys data).length →
        (update_geom lib g (update_geom lib g s).state).state.dom ≠
          (update_geom lib g s).state.dom) := by
  obtain ⟨new1, hl1, hn1, hdom1⟩ := update_geom_line_step lib s g g_info data i svg
    hg hline hd hs hsvg hc
  obtain ⟨f1, _, f3, f4, _, _⟩ := update_geom_frame lib g s
  have hsvg1 : (update_geom lib g s).state.dom[i]? =
      some { svg with children := svg.children ++ new1 } := by
    rw [hdom1]
    exact getElem?_set_same _ _ _ _ hsvg
  have hc1 : ∀ c ∈ ({ svg with children := svg.children ++ new1 } : Surface).children,
      c.attrs.lookup "class" = none := by
    intro c hcm
    rcases List.mem_append.mp hcm with h1 | h1
    · exact hc c h1
    · exact hn1 c h1
  obtain ⟨new2, hl2, _, hdom2⟩ := update_geom_line_step lib (update_geom lib g s).state g
    g_info data i { svg with children := svg.children ++ new1 }
    (by rw [f3]; exact hg) hline (by rw [f1]; exact hd) (by rw [f4]; exact hs) hsvg1 hc1
  have hsvg2 : (update_geom lib g (update_geom lib g s).state).state.dom[i]? =
      some { svg with children := svg.children ++ new1 ++ new2 } := by
    rw [hdom2]
    exact getElem?_set_same _ _ _ _ hsvg1
  refine ⟨new1, new2, hl1, hl2, ?_, ?_, ?_, ?_⟩
  · rw [hsvg1]; rfl
  · rw [hsvg2]; rfl
  · rw [hsvg2]
    simp only [Option.map_some', List.length_append, hl1, hl2]
    congr 1
    omega
  · intro hpos heq
    have h1 := hsvg2
    rw [heq, hsvg1] at h1
    have h2 := congrArg (fun o : Option Surface => o.map (fun sv => sv.children.length)) h1
    simp only [Option.map_some', List.length_append, Option.some.injEq] at h2
    omega

/-! ## Drilling into the nested index -/

theorem drill_group_only (S : List (String × SelectorInfo)) (gf : String) (d : JsData) :
    drill S [("group", gf)] d = .ok d := by
  simp [drill]

theorem drill_undefined (S : List (String × SelectorInfo)) (sel tail : List (String × String))
    (hng : ∀ p ∈ sel, p.1 ≠ "group") (hne : sel ≠ []) :
    drill S (sel ++ tail) .undefined = .error .typeError := by
  cases sel with
  | nil => exact absurd rfl hne
  | cons p rest =>
    obtain ⟨a, v⟩ := p
    have ha : a ≠ "group" := hng (a, v) (List.mem_cons_self _ _)
    simp only [List.cons_append, drill, bne_iff_ne, ne_eq, ha, not_false_eq_true, if_true]
    cases S.lookup v <;> simp [getProp]

theorem rowSelected_cons_some (S : List (String × SelectorInfo)) (a v : String)
    (sel : List (String × String)) (si : SelectorInfo) (ha : a ≠ "group")
    (hv : S.lookup v = some si) (rows : List Row) :
    rows.filter (rowSelected S ((a, v) :: sel)) =
      (rows.filter (fun r => decide (keyString (getcol v r) = si.selected.toKey))).filter
        (rowSelected S sel) := by
  rw [List.filter_filter]
  congr 1
  funext r
  have hb : (a == "group") = false := beq_false_of_ne ha
  simp only [rowSelected, List.all_cons, hb, hv, Option.map_some', Bool.false_or]
  rw [Bool.and_comm]
  congr 1
  by_cases h : keyString (getcol v r) = si.selected.toKey
  · simp [h]
  · have h2 : ¬ si.selected.toKey = keyString (getcol v r) := fun e => h e.symm
    simp [h, h2]

theorem rowSelected_cons_none (S : List (String × SelectorInfo)) (a v : String)
    (sel : List (String × String)) (ha : a ≠ "group")
    (hv : S.lookup v = none) (rows : List Row) :
    rows.filter (rowSelected S ((a, v) :: sel)) = [] := by
  rw [List.filter_eq_nil_iff]
  intro r _
  have hb : (a == "group") = false := beq_false_of_ne ha
  simp [rowSelected, hb, hv]

theorem drill_nest (S : List (String × SelectorInfo)) (rest : List String)
    (tail : List (String × String)) (sel : List (String × String)) :
    ∀ rows : List Row, (∀ p ∈ sel, p.1 ≠ "group") →
      ((sel = [] ∨ rows.filter (rowSelected S sel) ≠ []) →
        drill S (sel ++ tail) (d3_nest_map (sel.map Prod.snd ++ rest) rows) =
          drill S tail (d3_nest_map rest (rows.filter (rowSelected S sel)))) ∧
      ((sel ≠ [] ∧ rows.filter (rowSelected S sel) = []) →
        drill S (sel ++ tail) (d3_nest_map (sel.map Prod.snd ++ rest) rows) =
            .error .typeError ∨
          drill S (sel ++ tail) (d3_nest_map (sel.map Prod.snd ++ rest) rows) =
            drill S tail .undefined) := by
  induction sel with
  | nil =>
    intro rows _
    refine ⟨fun _ => ?_, fun h => absurd rfl h.1⟩
    have hall : rows.filter (rowSelected S []) = rows := by
      rw [List.filter_eq_self]
      intro r _
      rfl
    rw [hall]
    rfl
  | cons p sel ih =>
    intro rows hng
    obtain ⟨a, v⟩ := p
    have ha : a ≠ "group" := hng (a, v) (List.mem_cons_self _ _)
    have hng2 : ∀ p ∈ sel, p.1 ≠ "group" := fun p hp => hng p (List.mem_cons_of_mem _ hp)
    cases hv : S.lookup v with
    | none =>
      have hR := rowSelected_cons_none S a v sel ha hv rows
      have hdr : drill S ((a, v) :: sel ++ tail)
          (d3_nest_map (((a, v) :: sel).map Prod.snd ++ rest) rows) = .error .typeError := by
        simp [drill, ha, hv]
      refine ⟨fun h => ?_, fun _ => Or.inl hdr⟩
      rcases h with h | h
      · exact absurd h (by simp)
      · exact absurd hR h
    | some si =>
      have hR := rowSelected_cons_some S a v sel si ha hv rows
      have hstep : drill S ((a, v) :: sel ++ tail)
          (d3_nest_map (((a, v) :: sel).map Prod.snd ++ rest) rows) =
          if rows.filter (fun r => decide (keyString (getcol v r) = si.selected.toKey)) = []
          then drill S (sel ++ tail) .undefined
          else drill S (sel ++ tail) (d3_nest_map (sel.map Prod.snd ++ rest)
            (rows.filter (fun r => decide (keyString (getcol v r) = si.selected.toKey)))) := by
        simp only [List.cons_append, List.map_cons, drill, bne_iff_ne, ne_eq, ha,
          not_false_eq_true, if_true, hv, d3_nest_map, getProp, JsData.own]
        rw [List.append_eq, lookup_map_snd, lookup_valuesByKey]
        by_cases hf :
            rows.filter (fun r => decide (keyString (getcol v r) = si.selected.toKey)) = []
        · simp [hf]
        · simp [hf]
      rw [hR, hstep]
      by_cases hf :
          rows.filter (fun r => decide (keyString (getcol v r) = si.selected.toKey)) = []
      · rw [if_pos hf, hf]
        refine ⟨fun h => ?_, fun _ => ?_⟩
        · rcases h with h | h
          · exact absurd h (by simp)
          · exact absurd rfl h
        · by_cases hs : sel = []
          · subst hs
            exact Or.inr rfl
          · exact Or.inl (drill_undefined S sel tail hng2 hs)
      · rw [if_neg hf]
        obtain ⟨ih1, ih2⟩ := ih
          (rows.filter (fun r => decide (keyString (getcol v r) = si.selected.toKey))) hng2
        refine ⟨fun h => ?_, fun h => ?_⟩
        · rcases h with h | h
          · exact absurd h (by simp)
          · exact ih1 (Or.inr h)
        · by_cases hs : sel = []
          · subst hs
            exact absurd (by simpa [rowSelected] using h.2) hf
          · exact ih2 ⟨hs, h.2⟩

/-! ## The group level and its paths -/

theorem map_fst_bucketPush (m : List (String × List Row)) (k : String) (d : Row) :
    (bucketPush m k d).map Prod.fst =
      if k ∈ m.map Prod.fst then m.map Prod.fst else m.map Prod.fst ++ [k] := by
  induction m with
  | nil => simp [bucketPush]
  | cons p rest ih =>
    obtain ⟨k0, vs⟩ := p
    by_cases h : k0 = k
    · subst h
      simp [bucketPush]
    · have h2 : ¬ k = k0 := fun e => h e.symm
      simp only [bucketPush, h, if_false, List.map_cons, ih, List.mem_cons, h2, false_or]
      split <;> simp

theorem nodup_keys_foldl (key : Row → String) (rows : List Row) :
    ∀ m : List (String × List Row), (m.map Prod.fst).Nodup →
      ((rows.foldl (fun m d => bucketPush m (key d) d) m).map Prod.fst).Nodup := by
  induction rows with
  | nil => intro m h; exact h
  | cons d rest ih =>
    intro m h
    simp only [List.foldl_cons]
    apply ih
    rw [map_fst_bucketPush]
    split
    · exact h
    · next hk =>
      rw [List.nodup_append]
      refine ⟨h, List.nodup_singleton _, ?_⟩
      intro a ha hb
      simp only [List.mem_singleton] at hb
      subst hb
      exact hk ha

theorem mem_keys_iff_lookup {β : Type} (l : List (String × β)) (k : String) :
    k ∈ l.map Prod.fst ↔ l.lookup k ≠ none := by
  induction l with
  | nil => simp
  | cons p rest ih =>
    obtain ⟨k0, b⟩ := p
    by_cases h : k = k0
    · simp [List.lookup_cons, h]
    · simp [List.lookup_cons, beq_false_of_ne h, h, ih]

theorem mem_valuesByKey_keys (v_name : String) (rows : List Row) (k : String) :
    k ∈ (valuesByKey v_name rows).map Prod.fst ↔
      ∃ r ∈ rows, keyString (getcol v_name r) = k := by
  rw [mem_keys_iff_lookup, lookup_valuesByKey]
  by_cases hf : rows.filter (fun r => decide (keyString (getcol v_name r) = k)) = []
  · simp only [hf, if_true, ne_eq, not_true_eq_false, false_iff]
    rintro ⟨r, hr, hk⟩
    have : r ∈ rows.filter (fun r => decide (keyString (getcol v_name r) = k)) := by
      simp [List.mem_filter, hr, hk]
    rw [hf] at this
    simp at this
  · simp only [hf, if_false, ne_eq, reduceCtorEq, not_false_eq_true, true_iff]
    obtain ⟨r, hr⟩ := List.exists_mem_of_ne_nil _ hf
    rw [List.mem_filter] at hr
    exact ⟨r, hr.1, by simpa using hr.2⟩

theorem filterMap_index_snd (ks : List String) :
    (ks.filterMap (fun k => (arrayIndex k).map (fun n => (n, k)))).map Prod.snd =
      ks.filter (fun k => (arrayIndex k).isSome) := by
  induction ks with
  | nil => rfl
  | cons k rest ih =>
    cases h : arrayIndex k with
    | none => simp [List.filterMap_cons, List.filter_cons, h, ih]
    | some n => simp [List.filterMap_cons, List.filter_cons, h, ih]

theorem ownKeyOrder_perm (ks : List String) : (ownKeyOrder ks).Perm ks := by
  unfold ownKeyOrder
  have h1 := (List.perm_insertionSort (fun a b : Nat × String => a.1 ≤ b.1)
    (ks.filterMap (fun k => (arrayIndex k).map (fun n => (n, k))))).map Prod.snd
  rw [filterMap_index_snd] at h1
  have h2 := List.filter_append_perm (fun k => (arrayIndex k).isSome) ks
  have h3 : (fun k => !(arrayIndex k).isSome) = (fun k => (arrayIndex k).isNone) := by
    funext k
    cases arrayIndex k <;> rfl
  rw [h3] at h2
  exact (List.Perm.append_right _ h1).trans h2

theorem attrEach_ok (fn : Entry → Except JsError (Option String)) (f : Entry → String)
    (kv : List Entry) (h : ∀ e ∈ kv, fn e = .ok (some (f e))) :
    attrEach fn (appendPaths kv) =
      (kv.map (fun e => (⟨"path", [("d", f e)], some e⟩ : Element)), none) := by
  induction kv with
  | nil => rfl
  | cons e rest ih =>
    have he := h e (List.mem_cons_self _ _)
    have hr := ih (fun x hx => h x (List.mem_cons_of_mem _ hx))
    simp only [appendPaths, List.map_cons] at hr ⊢
    simp only [attrEach, he, hr]
    rfl

theorem mem_d3_entries (K : List String) (e : Entry) (h : e ∈ d3_entries K) : e.value ∈ K := by
  simp only [d3_entries, List.mem_map] at h
  obtain ⟨p, hp, rfl⟩ := h
  obtain ⟨_, heq⟩ := List.mem_enum hp
  show p.2 ∈ K
  rw [heq]
  apply List.getElem_mem

theorem update_geom_dom {Coord : Type} (lib : D3 Coord) (s : State) (g : String)
    (g_info : GeomInfo JsData) (i : Nat) (svg : Surface)
    (hg : s.Geoms.lookup g = some g_info)
    (hs : s.SVGs.lookup g = some i) (hsvg : s.dom[i]? = some svg) :
    (update_geom lib g s).state.dom =
      match drill s.Selectors g_info.subset g_info.data with
      | .error _ => s.dom
      | .ok data => s.dom.set i (render lib g_info data svg).1 := by
  unfold update_geom
  simp only [hg]
  cases drill s.Selectors g_info.subset g_info.data with
  | error e => rfl
  | ok data => simp only [hs, hsvg]

theorem rowSelected_append_group (S : List (String × SelectorInfo))
    (sel : List (String × String)) (gf : String) :
    rowSelected S (sel ++ [("group", gf)]) = rowSelected S sel := by
  funext r
  simp [rowSelected, List.all_append]

theorem render_undefined {Coord : Type} (lib : D3 Coord) (g_info : GeomInfo JsData)
    (svg : Surface) (hempty : svg.children = []) :
    (render lib g_info .undefined svg).1 = svg := by
  unfold render
  split
  · simp only [d3_keys, d3_entries, List.enum_nil, List.map_nil, hempty, joinData, appendPaths,
      attrEach, List.append_nil]
    cases svg
    simp_all
  · rfl

theorem groupPath_eq {Coord : Type} (lib : D3 Coord) (svg : Surface) (aes : Aes) (gf : String)
    (R : List Row) (e : Entry) :
    groupPath lib svg aes gf R e =
      ⟨"path", [("d", lib.path ((R.filter
        (fun r => decide (keyString (getcol gf r) = e.value))).map
          (fun d => (toX lib svg aes d, toY lib svg aes d))))], some e⟩ := by
  have hf : (fun r => decide (fieldText gf r = e.value)) =
      (fun r => decide (keyString (getcol gf r) = e.value)) := by
    funext r
    rw [fieldText_eq_key]
  have hp : scaledPoint lib svg aes = (fun d => (toX lib svg aes d, toY lib svg aes d)) := by
    funext d
    rfl
  unfold groupPath
  rw [hf, hp]

theorem render_group_level {Coord : Type} (lib : D3 Coord) (aes : Aes) (classed gf : String)
    (subset : List (String × String)) (idx : JsData) (R : List Row)
    (svg : Surface) (hempty : svg.children = []) :
    (render lib ⟨idx, subset, aes, classed, "line"⟩ (d3_nest_map [gf] R) svg).1 =
      { svg with children :=
        ((d3_entries (ownKeyOrder ((valuesByKey gf R).map Prod.fst))).map
          (groupPath lib svg aes gf R)) } := by
  have hkeys : d3_keys (d3_nest_map [gf] R) = ownKeyOrder ((valuesByKey gf R).map Prod.fst) := by
    simp only [d3_nest_map, d3_keys, List.map_map]
    rfl
  have hfn : ∀ e ∈ d3_entries (ownKeyOrder ((valuesByKey gf R).map Prod.fst)),
      (match getProp (d3_nest_map [gf] R) e.value with
        | .error err => (.error err : Except JsError (Option String))
        | .ok one_group => lineThing lib svg aes one_group) =
      .ok (some (lib.path ((R.filter
        (fun r => decide (keyString (getcol gf r) = e.value))).map
          (fun d => (toX lib svg aes d, toY lib svg aes d))))) := by
    intro e he
    have hk : e.value ∈ (valuesByKey gf R).map Prod.fst :=
      (ownKeyOrder_perm _).mem_iff.mp (mem_d3_entries _ e he)
    have hne : R.filter (fun r => decide (keyString (getcol gf r) = e.value)) ≠ [] := by
      obtain ⟨r, hr, hrk⟩ := (mem_valuesByKey_keys gf R e.value).mp hk
      intro hnil
      have : r ∈ R.filter (fun r => decide (keyString (getcol gf r) = e.value)) := by
        simp [List.mem_filter, hr, hrk]
      rw [hnil] at this
      simp at this
    simp only [d3_nest_map, getProp, JsData.own]
    rw [lookup_map_snd, lookup_valuesByKey, if_neg hne]
    simp only [Option.map_some', Option.getD_some]
    cases hR : R.filter (fun r => decide (keyString (getcol gf r) = e.value)) with
    | nil => exact absurd hR hne
    | cons r rs => rfl
  unfold render
  simp only [if_true, hkeys, hempty, joinData, List.nil_append]
  rw [attrEach_ok _ (fun e => lib.path ((R.filter
    (fun r => decide (keyString (getcol gf r) = e.value))).map
      (fun d => (toX lib svg aes d, toY lib svg aes d)))) _ hfn]
  have hgp : groupPath lib svg aes gf R = (fun e => (⟨"path", [("d", lib.path ((R.filter
      (fun r => decide (keyString (getcol gf r) = e.value))).map
        (fun d => (toX lib svg aes d, toY lib svg aes d))))], some e⟩ : Element)) :=
    funext (groupPath_eq lib svg aes gf R)
  rw [hgp]

/-- C7 (as amended): for a line geom whose subset mapping lists `group` last, after
entries none of which is named `group`, rendered on an empty surface, `update_geom`
leaves on that surface exactly one path per distinct group key of the selected
subset, and the path bound to the group key `k` has as `d` the line generator
applied to the selected rows whose group field reads `k`, in CSV order, each mapped
to the point (x scale of the surface at the cell in column `aes.x`, y scale of the
surface at the cell in column `aes.y`); the other surfaces are unchanged. -/
theorem line_geom_one_path_per_group {Coord : Type} (lib : D3 Coord) (s : State)
    (g : String) (sel : List (String × String)) (gf : String) (rows : List Row)
    (aes : Aes) (classed : String) (i : Nat) (svg : Surface)
    (hg : s.Geoms.lookup g = some ⟨buildIndex (sel ++ [("group", gf)]) rows,
      sel ++ [("group", gf)], aes, classed, "line"⟩)
    (hsel : ∀ p ∈ sel, p.1 ≠ "group")
    (hs : s.SVGs.lookup g = some i) (hsvg : s.dom[i]? = some svg)
    (hempty : svg.children = []) :
    ∃ K : List String, K.Nodup ∧
      (∀ k, k ∈ K ↔ ∃ r ∈ selectedRows s.Selectors (sel ++ [("group", gf)]) rows,
        fieldText gf r = k) ∧
      (update_geom lib g s).state.dom = s.dom.set i { svg with children :=
        ((d3_entries K).map (groupPath lib svg aes gf
          (selectedRows s.Selectors (sel ++ [("group", gf)]) rows))) } := by
  have hdom := update_geom_dom lib s g _ i svg hg hs hsvg
  simp only at hdom
  have hR : selectedRows s.Selectors (sel ++ [("group", gf)]) rows =
      rows.filter (rowSelected s.Selectors sel) := by
    simp only [selectedRows, rowSelected_append_group]
  have hidx : buildIndex (sel ++ [("group", gf)]) rows =
      d3_nest_map (sel.map Prod.snd ++ [gf]) rows := by
    simp [buildIndex]
  rw [hR]
  rw [hidx] at hdom
  obtain ⟨h1, h2⟩ := drill_nest s.Selectors [gf] [("group", gf)] sel rows hsel
  have hsvgself : s.dom.set i { svg with children := [] } = s.dom := by
    have : ({ svg with children := [] } : Surface) = svg := by
      cases svg
      simp_all
    rw [this]
    exact set_self _ _ _ hsvg
  by_cases hcase : sel = [] ∨ rows.filter (rowSelected s.Selectors sel) ≠ []
  · rw [h1 hcase, drill_group_only] at hdom
    simp only at hdom
    refine ⟨ownKeyOrder ((valuesByKey gf (rows.filter (rowSelected s.Selectors sel))).map
      Prod.fst), ?_, ?_, ?_⟩
    · exact (ownKeyOrder_perm _).nodup_iff.mpr
        (nodup_keys_foldl _ _ [] List.nodup_nil)
    · intro k
      rw [(ownKeyOrder_perm _).mem_iff]
      simp only [fieldText_eq_key]
      exact mem_valuesByKey_keys gf _ k
    · rw [hdom, render_group_level lib aes classed gf _ _ _ svg hempty]
  · have hB : sel ≠ [] ∧ rows.filter (rowSelected s.Selectors sel) = [] := by
      constructor
      · exact fun e => hcase (Or.inl e)
      · by_contra hne
        exact hcase (Or.inr hne)
    refine ⟨[], List.nodup_nil, ?_, ?_⟩
    · intro k
      simp [hB.2]
    · have hrhs : (d3_entries []).map (groupPath lib svg aes gf
          (rows.filter (rowSelected s.Selectors sel))) = [] := rfl
      rw [hrhs, hsvgself]
      rcases h2 hB with he | hu
      · rw [he] at hdom
        exact hdom
      · rw [hu, drill_group_only] at hdom
        simp only at hdom
        rw [hdom, render_undefined lib _ svg hempty]
        exact set_self _ _ _ hsvg

/-- C7, witness: the first render of `scatterGeom` with year 2001 selected, under
a library stand-in whose scaled cell shows which scale was applied.  Three rows are
selected, in the groups FR (two rows) and DE (one row); two paths are drawn, the
FR path through its two rows in CSV order, every x through the x scale (range
0:100) and every y through the y scale (range 50:0). -/
theorem line_geom_one_path_per_group_witness :
    selectedRows year2001Stored.Selectors ([("year", "year")] ++ [("group", "country")])
        demoRows =
      [[("year", "2001"), ("country", "FR"), ("x", "2"), ("y", "3")],
       [("year", "2001"), ("country", "DE"), ("x", "2"), ("y", "5")],
       [("year", "2001"), ("country", "FR"), ("x", "3"), ("y", "4")]] ∧
    (update_geom tagLib "scatterGeom" year2001Stored).state.dom.map (fun sv => sv.children) =
      [[⟨"path", [("d", "M2@0:100,3@50:0L3@0:100,4@50:0")], some ⟨"0", "FR"⟩⟩,
        ⟨"path", [("d", "M2@0:100,5@50:0")], some ⟨"1", "DE"⟩⟩]] ∧
    ∃ K : List String, K.Nodup ∧
      (∀ k, k ∈ K ↔ ∃ r ∈ selectedRows year2001Stored.Selectors
          ([("year", "year")] ++ [("group", "country")]) demoRows,
        fieldText "country" r = k) ∧
      (update_geom tagLib "scatterGeom" year2001Stored).state.dom =
        year2001Stored.dom.set 0 { demoSurface with children :=
          ((d3_entries K).map (groupPath tagLib demoSurface ⟨"x", "y"⟩ "country"
            (selectedRows year2001Stored.Selectors
              ([("year", "year")] ++ [("group", "country")]) demoRows))) } :=
  ⟨by decide, by decide, line_geom_one_path_per_group tagLib year2001Stored "scatterGeom"
    [("year", "year")] "country" demoRows ⟨"x", "y"⟩ "scatterGeom" 0 demoSurface
    (by rfl) (by decide) (by rfl) (by rfl) rfl⟩

/-- C7, counterexample: two line geoms rendered on the empty surface with year
2001 selected.  With `group` listed first the selected subset holds rows of the
groups FR and DE and no path is drawn.  With no `group` entry one path is appended
per selected row, none with a `d`, which is not one path per group for any grouping
field. -/
theorem line_geom_paths_need_group_last :
    selectedRows groupFirstStored.Selectors groupFirstGeom.subset demoRows =
      [[("year", "2001"), ("country", "FR"), ("x", "2"), ("y", "3")],
       [("year", "2001"), ("country", "DE"), ("x", "2"), ("y", "5")],
       [("year", "2001"), ("country", "FR"), ("x", "3"), ("y", "4")]] ∧
    groupFirstStored.dom.map (fun sv => sv.children) = [[]] ∧
    (update_geom demoLib "scatterGeom" groupFirstStored).state.dom.map
      (fun sv => sv.children) = [[]] ∧
    (¬ ∃ K : List String,
      (∀ k, k ∈ K ↔ ∃ r ∈ selectedRows groupFirstStored.Selectors groupFirstGeom.subset
        demoRows, fieldText "country" r = k) ∧
      (update_geom demoLib "scatterGeom" groupFirstStored).state.dom =
        groupFirstStored.dom.set 0 { demoSurface with children :=
          ((d3_entries K).map (groupPath demoLib demoSurface ⟨"x", "y"⟩ "country"
            (selectedRows groupFirstStored.Selectors groupFirstGeom.subset demoRows))) }) ∧
    noGroupStored.dom.map (fun sv => sv.children) = [[]] ∧
    (update_geom demoLib "scatterGeom" noGroupStored).state.dom.map
      (fun sv => sv.children) =
        [[⟨"path", [], some ⟨"0", "0"⟩⟩, ⟨"path", [], some ⟨"1", "1"⟩⟩,
          ⟨"path", [], some ⟨"2", "2"⟩⟩]] ∧
    (¬ ∃ (gf : String) (K : List String),
      (update_geom demoLib "scatterGeom" noGroupStored).state.dom =
        noGroupStored.dom.set 0 { demoSurface with children :=
          ((d3_entries K).map (groupPath demoLib demoSurface ⟨"x", "y"⟩ gf
            (selectedRows noGroupStored.Selectors noGroupGeom.subset demoRows))) }) := by
  refine ⟨by decide, by decide, by decide, ?_, by decide, by decide, ?_⟩
  · rintro ⟨K, hK, hdom⟩
    have hmem : "FR" ∈ K := (hK "FR").mpr
      ⟨[("year", "2001"), ("country", "FR"), ("x", "2"), ("y", "3")], by decide, by decide⟩
    have hlen := congrArg (fun d : List Surface => d.map (fun sv => sv.children.length)) hdom
    have hl : (update_geom demoLib "scatterGeom" groupFirstStored).state.dom.map
        (fun sv => sv.children.length) = [0] := by decide
    have hr : (groupFirstStored.dom.set 0 { demoSurface with children :=
        ((d3_entries K).map (groupPath demoLib demoSurface ⟨"x", "y"⟩ "country"
          (selectedRows groupFirstStored.Selectors groupFirstGeom.subset demoRows))) }).map
        (fun sv => sv.children.length) = [K.length] := by
      have hd : groupFirstStored.dom = [demoSurface] := by decide
      rw [hd]
      simp [d3_entries]
    simp only at hlen
    rw [hl, hr] at hlen
    have h0 : K.length = 0 := by simpa using hlen.symm
    rw [List.length_eq_zero] at h0
    rw [h0] at hmem
    simp at hmem
  · rintro ⟨gf, K, hdom⟩
    have hat := congrArg (fun d : List Surface =>
      d.map (fun sv => sv.children.map (fun e => e.attrs.length))) hdom
    have hl : (update_geom demoLib "scatterGeom" noGroupStored).state.dom.map
        (fun sv => sv.children.map (fun e => e.attrs.length)) = [[0, 0, 0]] := by decide
    have hr : (noGroupStored.dom.set 0 { demoSurface with children :=
        ((d3_entries K).map (groupPath demoLib demoSurface ⟨"x", "y"⟩ gf
          (selectedRows noGroupStored.Selectors noGroupGeom.subset demoRows))) }).map
        (fun sv => sv.children.map (fun e => e.attrs.length)) =
        [(d3_entries K).map (fun _ => 1)] := by
      have hd : noGroupStored.dom = [demoSurface] := by decide
      rw [hd]
      simp only [List.set_cons_zero, List.map_cons, List.map_nil, List.map_map]
      congr 1
    simp only at hat
    rw [hl, hr] at hat
    cases K with
    | nil => simp [d3_entries] at hat
    | cons k K => simp [d3_entries, List.enum, List.enumFrom] at hat

/-- C4 (as amended): for a geom whose subset mapping lists `group` last or not at
all, and for every state of the selectors, the data the loop of `update_geom`
reaches in the nested index built by `add_geom` holds exactly the geom's selected
rows: the rows in which every entry other than `group` names an existing selector
whose selected value, as a string, is the row's cell.  When the loop ends in a
TypeError no row is selected. -/
theorem drill_reaches_selected_rows (S : List (String × SelectorInfo))
    (sel grp : List (String × String)) (rows : List Row)
    (hsel : ∀ p ∈ sel, p.1 ≠ "group")
    (hgrp : grp = [] ∨ ∃ gf, grp = [("group", gf)]) :
    match drill S (sel ++ grp) (buildIndex (sel ++ grp) rows) with
    | .ok d => d.leaves.flatten.Perm (selectedRows S (sel ++ grp) rows)
    | .error _ => selectedRows S (sel ++ grp) rows = [] := by
  have hcore : ∀ (rest : List String) (tail : List (String × String)),
      (∀ d, drill S tail d = .ok d) →
      match drill S (sel ++ tail) (d3_nest_map (sel.map Prod.snd ++ rest) rows) with
      | .ok d => d.leaves.flatten.Perm (rows.filter (rowSelected S sel))
      | .error _ => rows.filter (rowSelected S sel) = [] := by
    intro rest tail htail
    obtain ⟨h1, h2⟩ := drill_nest S rest tail sel rows hsel
    by_cases hcase : sel = [] ∨ rows.filter (rowSelected S sel) ≠ []
    · rw [h1 hcase, htail]
      exact leaves_nest_perm rest _
    · have hB : sel ≠ [] ∧ rows.filter (rowSelected S sel) = [] := by
        constructor
        · exact fun e => hcase (Or.inl e)
        · by_contra hne
          exact hcase (Or.inr hne)
      rcases h2 hB with he | hu
      · rw [he]
        exact hB.2
      · rw [hu, htail, hB.2]
        simp [JsData.leaves]
  rcases hgrp with rfl | ⟨gf, rfl⟩
  · have h := hcore [] [] (fun d => rfl)
    simpa [buildIndex, selectedRows] using h
  · have hR : selectedRows S (sel ++ [("group", gf)]) rows =
        rows.filter (rowSelected S sel) := by
      simp only [selectedRows, rowSelected_append_group]
    have hidx : buildIndex (sel ++ [("group", gf)]) rows =
        d3_nest_map (sel.map Prod.snd ++ [gf]) rows := by
      simp [buildIndex]
    rw [hR, hidx]
    exact hcore [gf] [("group", gf)] (drill_group_only S gf)

/-- C4, witness: with the subset mapping in the order year, group and year 2001
selected, the loop reaches the country level of year 2001, whose leaves hold the
three rows of that year. -/
theorem drill_reaches_selected_rows_witness :
    (match drill groupFirstStored.Selectors ([("year", "year")] ++ [("group", "country")])
        (buildIndex ([("year", "year")] ++ [("group", "country")]) demoRows) with
      | .ok d => d.leaves.flatten
      | .error _ => []) =
      [[("year", "2001"), ("country", "FR"), ("x", "2"), ("y", "3")],
       [("year", "2001"), ("country", "FR"), ("x", "3"), ("y", "4")],
       [("year", "2001"), ("country", "DE"), ("x", "2"), ("y", "5")]] ∧
    match drill groupFirstStored.Selectors ([("year", "year")] ++ [("group", "country")])
        (buildIndex ([("year", "year")] ++ [("group", "country")]) demoRows) with
    | .ok d => d.leaves.flatten.Perm (selectedRows groupFirstStored.Selectors
        ([("year", "year")] ++ [("group", "country")]) demoRows)
    | .error _ => selectedRows groupFirstStored.Selectors
        ([("year", "year")] ++ [("group", "country")]) demoRows = [] :=
  ⟨by rfl, drill_reaches_selected_rows groupFirstStored.Selectors [("year", "year")]
    [("group", "country")] demoRows (by decide) (Or.inr ⟨"country", rfl⟩)⟩

/-- C4, counterexample: with the subset mapping in the order group, year and with
year 2001 selected, three rows carry year 2001, yet the loop of `update_geom`
indexes the country level of the nested index by "2001" and ends with `undefined`,
which holds no row. -/
theorem drill_group_first_reaches_undefined :
    groupFirstStored.Geoms.lookup "scatterGeom" =
      some ⟨buildIndex groupFirstGeom.subset demoRows, [("group", "country"), ("year", "year")],
        ⟨"x", "y"⟩, "scatterGeom", "line"⟩ ∧
    groupFirstStored.Selectors.lookup "year" = some ⟨.num 2001, [], ["scatterGeom"]⟩ ∧
    drill groupFirstStored.Selectors [("group", "country"), ("year", "year")]
      (buildIndex groupFirstGeom.subset demoRows) = .ok .undefined ∧
    JsData.undefined.leaves.flatten = [] ∧
    selectedRows groupFirstStored.Selectors [("group", "country"), ("year", "year")] demoRows =
      [[("year", "2001"), ("country", "FR"), ("x", "2"), ("y", "3")],
       [("year", "2001"), ("country", "DE"), ("x", "2"), ("y", "5")],
       [("year", "2001"), ("country", "FR"), ("x", "3"), ("y", "4")]] ∧
    ¬ (match drill groupFirstStored.Selectors [("group", "country"), ("year", "year")]
        (buildIndex [("group", "country"), ("year", "year")] demoRows) with
      | .ok d => d.leaves.flatten.Perm (selectedRows groupFirstStored.Selectors
          [("group", "country"), ("year", "year")] demoRows)
      | .error _ => selectedRows groupFirstStored.Selectors
          [("group", "country"), ("year", "year")] demoRows = []) := by
  refine ⟨by rfl, by decide, by rfl, by rfl, by decide, ?_⟩
  have hd : drill groupFirstStored.Selectors [("group", "country"), ("year", "year")]
      (buildIndex [("group", "country"), ("year", "year")] demoRows) = .ok .undefined := by rfl
  rw [hd]
  intro h
  have hl := h.length_eq
  have hs : (selectedRows groupFirstStored.Selectors
      [("group", "country"), ("year", "year")] demoRows).length = 3 := by decide
  rw [hs] at hl
  simp [JsData.leaves] at hl

/-- C6, witness: the loaded sample page shows one path; two further renders of
`scatterGeom` with the same selection leave three. -/
theorem update_geom_accumulates_witness :
    demoLoaded.dom.map (fun sv => sv.children.length) = [1] ∧
    (update_geom demoLib "scatterGeom"
      (update_geom demoLib "scatterGeom" demoLoaded).state).state.dom.map
        (fun sv => sv.children.length) = [3] ∧
    ∃ new1 new2 : List Element,
      new1.length = (d3_keys (JsData.object [("FR", .array
        [[("year", "2000"), ("country", "FR"), ("x", "1"), ("y", "2")]])])).length ∧
      new2.length = (d3_keys (JsData.object [("FR", .array
        [[("year", "2000"), ("country", "FR"), ("x", "1"), ("y", "2")]])])).length ∧
      ((update_geom demoLib "scatterGeom" demoLoaded).state.dom[0]?).map
          (fun sv => sv.children) =
        some (({ demoSurface with
          children := [⟨"path", [("d", "M1,2")], some ⟨"0", "FR"⟩⟩] } : Surface).children
            ++ new1) ∧
      ((update_geom demoLib "scatterGeom"
          (update_geom demoLib "scatterGeom" demoLoaded).state).state.dom[0]?).map
          (fun sv => sv.children) =
        some (({ demoSurface with
          children := [⟨"path", [("d", "M1,2")], some ⟨"0", "FR"⟩⟩] } : Surface).children
            ++ new1 ++ new2) ∧
      ((update_geom demoLib "scatterGeom"
          (update_geom demoLib "scatterGeom" demoLoaded).state).state.dom[0]?).map
          (fun sv => sv.children.length) =
        some (({ demoSurface with
          children := [⟨"path", [("d", "M1,2")], some ⟨"0", "FR"⟩⟩] } : Surface).children.length
            + 2 * (d3_keys (JsData.object [("FR", .array
              [[("year", "2000"), ("country", "FR"), ("x", "1"), ("y", "2")]])])).length) ∧
      (1 ≤ (d3_keys (JsData.object [("FR", .array
          [[("year", "2000"), ("country", "FR"), ("x", "1"), ("y", "2")]])])).length →
        (update_geom demoLib "scatterGeom"
            (update_geom demoLib "scatterGeom" demoLoaded).state).state.dom ≠
          (update_geom demoLib "scatterGeom" demoLoaded).state.dom) :=
  ⟨by decide, by decide, update_geom_accumulates demoLib demoLoaded "scatterGeom"
    ⟨buildIndex demoGeom.subset demoRows, [("year", "year"), ("group", "country")],
      ⟨"x", "y"⟩, "scatterGeom", "line"⟩
    (JsData.object [("FR", .array
      [[("year", "2000"), ("country", "FR"), ("x", "1"), ("y", "2")]])])
    0 { demoSurface with children := [⟨"path", [("d", "M1,2")], some ⟨"0", "FR"⟩⟩] }
    (by rfl) (by rfl) (by rfl) (by rfl) (by rfl) (by decide)⟩

end Animint
